import Mathlib

/-!
Verification of the prompt-architect core: a shallow embedding of
`prompt_architect.py` and `prompt_templates.py` over `List Char` strings,
together with theorems settling the specification claims.

Strings are modelled as `List Char` (`Str`).  Python `str.lower`,
`str.title`, `str.replace` and the two regular expressions used by the
source (`(\d+)\s*words?` and `\b[a-z]+\b`) are embedded as executable
functions restricted to their ASCII behaviour, which is the only behaviour
the source's trigger lexicons exercise.
-/

set_option maxRecDepth 100000

abbrev Str := List Char

/-- ASCII lower-casing of one character, the fragment of Python `str.lower`
relevant to the ASCII trigger lexicons. -/
def pyLowerChar (c : Char) : Char :=
  match c with
  | 'A' => 'a' | 'B' => 'b' | 'C' => 'c' | 'D' => 'd' | 'E' => 'e'
  | 'F' => 'f' | 'G' => 'g' | 'H' => 'h' | 'I' => 'i' | 'J' => 'j'
  | 'K' => 'k' | 'L' => 'l' | 'M' => 'm' | 'N' => 'n' | 'O' => 'o'
  | 'P' => 'p' | 'Q' => 'q' | 'R' => 'r' | 'S' => 's' | 'T' => 't'
  | 'U' => 'u' | 'V' => 'v' | 'W' => 'w' | 'X' => 'x' | 'Y' => 'y'
  | 'Z' => 'z'
  | c => c

/-- ASCII upper-casing of one character (fragment of Python `str.upper`). -/
def pyUpperChar (c : Char) : Char :=
  match c with
  | 'a' => 'A' | 'b' => 'B' | 'c' => 'C' | 'd' => 'D' | 'e' => 'E'
  | 'f' => 'F' | 'g' => 'G' | 'h' => 'H' | 'i' => 'I' | 'j' => 'J'
  | 'k' => 'K' | 'l' => 'L' | 'm' => 'M' | 'n' => 'N' | 'o' => 'O'
  | 'p' => 'P' | 'q' => 'Q' | 'r' => 'R' | 's' => 'S' | 't' => 'T'
  | 'u' => 'U' | 'v' => 'V' | 'w' => 'W' | 'x' => 'X' | 'y' => 'Y'
  | 'z' => 'Z'
  | c => c

/-- Python `text.lower()`. -/
def lower (s : Str) : Str := s.map pyLowerChar

/-- Python `pat in hay` substring test. -/
def occursIn (pat : Str) : Str → Bool
  | [] => pat.isEmpty
  | c :: t => pat.isPrefixOf (c :: t) || occursIn pat t

def isAsciiAlpha (c : Char) : Bool :=
  ('a' ≤ c && c ≤ 'z') || ('A' ≤ c && c ≤ 'Z')

def isAZ (c : Char) : Bool := 'a' ≤ c && c ≤ 'z'

def isAsciiDigit (c : Char) : Bool := '0' ≤ c && c ≤ '9'

/-- Characters matched by the regex class `\s` (ASCII fragment). -/
def pyIsSpace (c : Char) : Bool :=
  c = ' ' || c = '\t' || c = '\n' || c = '\r' || c = '\x0b' || c = '\x0c'

/-- Characters matched by the regex class `\w` (ASCII fragment). -/
def isWordChar (c : Char) : Bool :=
  isAsciiAlpha c || isAsciiDigit c || c = '_'

def splitRunsGo (p : Char → Bool) (cur : Str) : Str → List Str
  | [] => if cur.isEmpty then [] else [cur.reverse]
  | c :: t =>
    if p c then splitRunsGo p (c :: cur) t
    else if cur.isEmpty then splitRunsGo p [] t
    else cur.reverse :: splitRunsGo p [] t

/-- Maximal runs of characters satisfying `p` (used to embed the regex
`\b[a-z]+\b` via `\w` runs). -/
def splitRuns (p : Char → Bool) (s : Str) : List Str := splitRunsGo p [] s

/-- `re.findall(r"\b[a-z]+\b", text)`: the maximal `\w` runs that consist
entirely of lower-case ASCII letters. -/
def findWords (text : Str) : List Str :=
  (splitRuns isWordChar text).filter (fun w => w.all isAZ)

/-- Order-preserving de-duplication, keeping first occurrences
(Python `dict.fromkeys`). -/
def dedupFirst (seen : List Str) : List Str → List Str
  | [] => []
  | x :: xs => if seen.contains x then dedupFirst seen xs
               else x :: dedupFirst (x :: seen) xs

/-- Python `sep.join(xs)`. -/
def joinSep (sep : Str) : List Str → Str
  | [] => []
  | [x] => x
  | x :: xs => x ++ sep ++ joinSep sep xs

/-- Python `s.replace("_", " ")` (single-character replacement). -/
def replUnderscore (s : Str) : Str :=
  s.map (fun c => if c = '_' then ' ' else c)

def pyTitleGo (prevAlpha : Bool) : Str → Str
  | [] => []
  | c :: t =>
    (if isAsciiAlpha c then (if prevAlpha then pyLowerChar c else pyUpperChar c) else c)
      :: pyTitleGo (isAsciiAlpha c) t

/-- Python `s.title()` (ASCII fragment). -/
def pyTitle (s : Str) : Str := pyTitleGo false s

/-- Decimal digits of `n`, as produced by Python `f-string` formatting. -/
def natStr (n : Nat) : Str := Nat.toDigits 10 n

/-- The leftmost match of the regex `(\d+)\s*words?`, returning capture
group 1 (the digit run), embedded from `re.search` in
`PromptArchitect._extract_constraints`. -/
def findWordCount : Str → Option Str
  | [] => none
  | c :: t =>
    if isAsciiDigit c then
      let ds := (c :: t).takeWhile isAsciiDigit
      let rest := ((c :: t).dropWhile isAsciiDigit).dropWhile pyIsSpace
      if "word".data.isPrefixOf rest then some ds else findWordCount t
    else findWordCount t

/-- Number of occurrence positions of `pat` in `hay` (for nonempty `pat`
this is the number of substring occurrences, counting overlaps). -/
def countOcc (pat : Str) : Str → Nat
  | [] => 0
  | c :: t => (if pat.isPrefixOf (c :: t) then 1 else 0) + countOcc pat t

def replaceAllGo (pat new : Str) : Nat → Str → Str
  | _, [] => []
  | 0, hay => hay
  | fuel + 1, c :: t =>
    if !pat.isEmpty && pat.isPrefixOf (c :: t) then
      new ++ replaceAllGo pat new fuel ((c :: t).drop pat.length)
    else
      c :: replaceAllGo pat new fuel t

/-- Python `hay.replace(pat, new)` for nonempty `pat`: replace
non-overlapping occurrences left to right.  (For empty `pat` this is the
identity; the source only ever replaces nonempty placeholder patterns.
The fuel argument, initially `hay.length`, only makes the recursion
structural; it never runs out because each step consumes at least one
character.) -/
def replaceAll (pat new hay : Str) : Str := replaceAllGo pat new hay.length hay

/-- `"{" ++ v ++ "}"`: the placeholder pattern for variable `v`. -/
def ph (v : Str) : Str := '\x7b' :: (v ++ ['\x7d'])

/- ===================== prompt_architect.py : data model ===================== -/

/-- `PromptCategory` enum. -/
inductive PromptCategory where
  | CONTENT_CREATION
  | AGENT_DEVELOPMENT
  | EDUCATIONAL
  | BUSINESS
  | TECHNICAL
  | CREATIVE
  | ANALYSIS
  | CONVERSATION
deriving DecidableEq, Repr

/-- `TargetLLM` enum. -/
inductive TargetLLM where
  | CLAUDE_35_SONNET
  | CLAUDE_35_HAIKU
  | GPT_4_TURBO
  | GPT_4O
  | GEMINI_PRO
deriving DecidableEq, Repr

/-- `PromptContext` dataclass. -/
structure PromptContext where
  raw_input : Str
  intent : Str
  category : PromptCategory
  target_audience : Str
  tone : Str
  output_format : Str
  constraints : List Str
  keywords : List Str
  complexity_level : Str
deriving DecidableEq, Repr

/-- `StructuredPrompt` dataclass. -/
structure StructuredPrompt where
  role_definition : Str
  context : Str
  instructions : List Str
  constraints : List Str
  output_format : Str
  examples : Option (List Str)
  quality_criteria : List Str
  full_prompt : Str
deriving DecidableEq, Repr

/- ===================== lexicon tables ===================== -/

/-- `PromptArchitect._load_intent_keywords`. -/
def intent_keywords : List (Str × List Str) :=
  [ ("create".data, ["create".data, "generate".data, "write".data, "make".data, "produce".data, "build".data, "design".data]),
    ("analyze".data, ["analyze".data, "examine".data, "evaluate".data, "assess".data, "review".data, "study".data]),
    ("explain".data, ["explain".data, "describe".data, "clarify".data, "teach".data, "show".data, "demonstrate".data]),
    ("improve".data, ["improve".data, "optimize".data, "enhance".data, "refine".data, "better".data, "upgrade".data]),
    ("convert".data, ["convert".data, "transform".data, "translate".data, "change".data, "adapt".data, "rewrite".data]),
    ("summarize".data, ["summarize".data, "condense".data, "brief".data, "overview".data, "abstract".data]),
    ("compare".data, ["compare".data, "contrast".data, "difference".data, "versus".data, "vs".data]),
    ("plan".data, ["plan".data, "strategy".data, "roadmap".data, "outline".data, "structure".data]) ]

/-- `PromptArchitect._load_tone_indicators`. -/
def tone_indicators : List (Str × List Str) :=
  [ ("professional".data, ["business".data, "corporate".data, "formal".data, "professional".data, "official".data]),
    ("casual".data, ["casual".data, "friendly".data, "informal".data, "conversational".data, "relaxed".data]),
    ("academic".data, ["academic".data, "scholarly".data, "research".data, "scientific".data, "technical".data]),
    ("creative".data, ["creative".data, "artistic".data, "imaginative".data, "innovative".data, "original".data]),
    ("persuasive".data, ["persuasive".data, "convincing".data, "compelling".data, "influential".data]),
    ("educational".data, ["educational".data, "teaching".data, "learning".data, "tutorial".data, "instructional".data]) ]

/-- priority-ordered category trigger table in `_detect_category`. -/
def category_keywords : List (PromptCategory × List Str) :=
  [ (PromptCategory.ANALYSIS, ["analyze".data, "analysis".data, "data".data, "research".data, "study".data, "report".data, "insights".data, "examine".data, "evaluate".data]),
    (PromptCategory.AGENT_DEVELOPMENT, ["agent".data, "bot".data, "assistant".data, "chatbot".data, "ai system".data]),
    (PromptCategory.TECHNICAL, ["code".data, "programming".data, "technical".data, "software".data, "debug".data, "script".data, "function".data]),
    (PromptCategory.EDUCATIONAL, ["teach".data, "learn".data, "tutorial".data, "course".data, "lesson".data, "education".data, "explain".data, "instruct".data]),
    (PromptCategory.CREATIVE, ["story".data, "creative".data, "fiction".data, "poem".data, "narrative".data, "novel".data]),
    (PromptCategory.BUSINESS, ["business".data, "marketing".data, "sales".data, "strategy".data, "proposal".data, "plan".data]),
    (PromptCategory.CONTENT_CREATION, ["blog".data, "article".data, "content".data, "post".data, "copy".data, "write".data]),
    (PromptCategory.CONVERSATION, ["chat".data, "conversation".data, "dialogue".data, "discuss".data]) ]

/-- audience trigger table in `_detect_audience`. -/
def audiences : List (Str × List Str) :=
  [ ("beginners".data, ["beginner".data, "novice".data, "new".data, "starter".data, "basic".data]),
    ("intermediate".data, ["intermediate".data, "moderate".data, "regular".data]),
    ("experts".data, ["expert".data, "advanced".data, "professional".data, "specialist".data]),
    ("students".data, ["student".data, "learner".data, "pupil".data]),
    ("professionals".data, ["professional".data, "business".data, "corporate".data]),
    ("general_public".data, ["everyone".data, "general".data, "public".data, "anyone".data]) ]

/-- output-format trigger table in `_detect_output_format`. -/
def formats : List (Str × List Str) :=
  [ ("markdown".data, ["markdown".data, "md".data, "formatted".data]),
    ("json".data, ["json".data, "structured data".data]),
    ("list".data, ["list".data, "bullet points".data, "numbered".data]),
    ("paragraph".data, ["paragraph".data, "essay".data, "prose".data]),
    ("code".data, ["code".data, "script".data, "program".data]),
    ("table".data, ["table".data, "spreadsheet".data, "grid".data]),
    ("step-by-step".data, ["step".data, "steps".data, "guide".data, "tutorial".data]) ]

/-- stop-word set in `_extract_keywords`. -/
def stop_words : List Str :=
  [ "the".data, "a".data, "an".data, "and".data, "or".data, "but".data, "in".data, "on".data, "at".data, "to".data, "for".data,
    "of".data, "with".data, "by".data, "from".data, "as".data, "is".data, "was".data, "are".data, "were".data, "be".data,
    "been".data, "being".data, "have".data, "has".data, "had".data, "do".data, "does".data, "did".data, "will".data,
    "would".data, "should".data, "could".data, "may".data, "might".data, "must".data, "can".data, "i".data, "you".data,
    "he".data, "she".data, "it".data, "we".data, "they".data, "this".data, "that".data, "these".data, "those".data ]

/- ===================== context extractor ===================== -/

/-- Python `max(intent_scores, key=intent_scores.get)`: first key attaining
the maximum, scanning left to right and replacing only on strictly greater
score. -/
def maxByFirst (best : Str × Nat) : List (Str × Nat) → Str × Nat
  | [] => best
  | p :: t => if best.2 < p.2 then maxByFirst p t else maxByFirst best t

/-- `PromptArchitect._detect_intent`. -/
def detect_intent (text : Str) : Str :=
  let tl := lower text
  let intent_scores :=
    (intent_keywords.map (fun p => (p.1, p.2.countP (fun k => occursIn k tl)))).filter
      (fun p => 0 < p.2)
  match intent_scores with
  | [] => "general_assistance".data
  | b :: rest => (maxByFirst b rest).1

/-- `PromptArchitect._detect_category`. -/
def detect_category (text : Str) : PromptCategory :=
  let tl := lower text
  match category_keywords.find? (fun p => p.2.any (fun k => occursIn k tl)) with
  | some p => p.1
  | none => PromptCategory.CONTENT_CREATION

/-- `PromptArchitect._detect_audience`. -/
def detect_audience (text : Str) : Str :=
  let tl := lower text
  match audiences.find? (fun p => p.2.any (fun k => occursIn k tl)) with
  | some p => p.1
  | none => "general_public".data

/-- `PromptArchitect._detect_tone`. -/
def detect_tone (text : Str) : Str :=
  let tl := lower text
  match tone_indicators.find? (fun p => p.2.any (fun k => occursIn k tl)) with
  | some p => p.1
  | none => "professional".data

/-- `PromptArchitect._detect_output_format`. -/
def detect_output_format (text : Str) : Str :=
  let tl := lower text
  match formats.find? (fun p => p.2.any (fun k => occursIn k tl)) with
  | some p => p.1
  | none => "paragraph".data

/-- `PromptArchitect._extract_constraints`. -/
def extract_constraints (text : Str) : List Str :=
  let tl := lower text
  let c1 : List Str :=
    if occursIn "short".data tl || occursIn "brief".data tl then
      ["Keep response concise and brief".data]
    else if occursIn "detailed".data tl || occursIn "comprehensive".data tl then
      ["Provide detailed and comprehensive response".data]
    else []
  let c2 : List Str :=
    match findWordCount tl with
    | some ds => ["Limit response to approximately ".data ++ ds ++ " words".data]
    | none => []
  let c3 : List Str :=
    if occursIn "quick".data tl || occursIn "fast".data tl then
      ["Prioritize speed and efficiency".data]
    else []
  let c4 : List Str :=
    if occursIn "accurate".data tl || occursIn "precise".data tl then
      ["Ensure high accuracy and precision".data]
    else []
  let c5 : List Str :=
    if occursIn "simple".data tl || occursIn "easy".data tl then
      ["Use simple, easy-to-understand language".data]
    else []
  c1 ++ c2 ++ c3 ++ c4 ++ c5

/-- `PromptArchitect._extract_keywords`. -/
def extract_keywords (text : Str) : List Str :=
  let words := findWords (lower text)
  let keywords := words.filter (fun w => !stop_words.contains w && 3 < w.length)
  (dedupFirst [] keywords).take 10

/-- `PromptArchitect._determine_complexity`. -/
def determine_complexity (text : Str) : Str :=
  let tl := lower text
  if ["simple".data, "basic".data, "easy".data, "beginner".data].any (fun k => occursIn k tl) then
    "basic".data
  else if ["advanced".data, "complex".data, "expert".data, "sophisticated".data].any (fun k => occursIn k tl) then
    "advanced".data
  else
    "intermediate".data

/-- `PromptArchitect.extract_context`. -/
def extract_context (raw_input : Str) : PromptContext :=
  { raw_input := raw_input
    intent := detect_intent raw_input
    category := detect_category raw_input
    target_audience := detect_audience raw_input
    tone := detect_tone raw_input
    output_format := detect_output_format raw_input
    constraints := extract_constraints raw_input
    keywords := extract_keywords raw_input
    complexity_level := determine_complexity raw_input }

/- ===================== prompt assembler ===================== -/

/-- `role_templates` table in `generate_role_definition`. -/
def role_templates : List (PromptCategory × Str) :=
  [ (PromptCategory.CONTENT_CREATION, "You are an expert content creator and writer".data),
    (PromptCategory.AGENT_DEVELOPMENT, "You are an advanced AI agent developer and system architect".data),
    (PromptCategory.EDUCATIONAL, "You are an experienced educator and instructional designer".data),
    (PromptCategory.BUSINESS, "You are a seasoned business consultant and strategist".data),
    (PromptCategory.TECHNICAL, "You are a senior technical expert and software engineer".data),
    (PromptCategory.CREATIVE, "You are a creative professional and storyteller".data),
    (PromptCategory.ANALYSIS, "You are a data analyst and research specialist".data),
    (PromptCategory.CONVERSATION, "You are a helpful and engaging conversational assistant".data) ]

/-- `tone_modifiers` table in `generate_role_definition`. -/
def tone_modifiers : List (Str × Str) :=
  [ ("professional".data, "with a professional and polished communication style".data),
    ("casual".data, "with a friendly and approachable demeanor".data),
    ("academic".data, "with strong academic and research credentials".data),
    ("creative".data, "with exceptional creative and innovative thinking abilities".data),
    ("persuasive".data, "with excellent persuasion and influence skills".data),
    ("educational".data, "with proven teaching and mentoring capabilities".data) ]

/-- `PromptArchitect.generate_role_definition`. -/
def generate_role_definition (ctx : PromptContext) : Str :=
  let base0 :=
    match role_templates.find? (fun p => decide (p.1 = ctx.category)) with
    | some p => p.2
    | none => "You are a knowledgeable AI assistant".data
  let base1 :=
    if ctx.keywords.isEmpty then base0
    else base0 ++ " specializing in ".data ++ joinSep ", ".data (ctx.keywords.take 3)
  let base2 :=
    match tone_modifiers.find? (fun p => decide (p.1 = ctx.tone)) with
    | some p => base1 ++ ", ".data ++ p.2
    | none => base1
  base2 ++ ".".data

/-- `intent_instructions` table in `generate_instructions` (the `create`
entry interpolates the context\x27s output format). -/
def intent_instructions (fmt : Str) : List (Str × Str) :=
  [ ("create".data, "Create ".data ++ fmt ++ " content that addresses the user\x27s request".data),
    ("analyze".data, "Conduct a thorough analysis of the subject matter".data),
    ("explain".data, "Provide a clear and comprehensive explanation".data),
    ("improve".data, "Identify areas for improvement and provide actionable recommendations".data),
    ("convert".data, "Transform the content while maintaining core meaning and value".data),
    ("summarize".data, "Distill the key points into a concise summary".data),
    ("compare".data, "Conduct a detailed comparison highlighting similarities and differences".data),
    ("plan".data, "Develop a structured plan with clear steps and milestones".data) ]

/-- `audience_instructions` table in `generate_instructions`. -/
def audience_instructions : List (Str × Str) :=
  [ ("beginners".data, "Explain concepts in simple terms suitable for beginners with no prior knowledge".data),
    ("intermediate".data, "Provide balanced explanations assuming moderate familiarity with the topic".data),
    ("experts".data, "Use technical terminology and advanced concepts appropriate for experts".data),
    ("students".data, "Structure content to facilitate learning and retention".data),
    ("professionals".data, "Focus on practical applications and professional relevance".data),
    ("general_public".data, "Make content accessible and engaging for a broad audience".data) ]

/-- `format_instructions` table in `generate_instructions`. -/
def format_instructions : List (Str × Str) :=
  [ ("markdown".data, "Format output using proper markdown syntax with headers, lists, and emphasis".data),
    ("json".data, "Structure output as valid JSON with clear key-value pairs".data),
    ("list".data, "Present information as organized bullet points or numbered lists".data),
    ("paragraph".data, "Write in well-structured paragraphs with smooth transitions".data),
    ("code".data, "Provide clean, well-commented code with best practices".data),
    ("table".data, "Organize information in a clear tabular format".data),
    ("step-by-step".data, "Present information as sequential, actionable steps".data) ]

/-- Python `dict.get(key, default)` over an association list. -/
def lookupD (table : List (Str × Str)) (key dflt : Str) : Str :=
  match table.find? (fun p => decide (p.1 = key)) with
  | some p => p.2
  | none => dflt

/-- `PromptArchitect.generate_instructions`. -/
def generate_instructions (ctx : PromptContext) : List Str :=
  let i1 := lookupD (intent_instructions ctx.output_format) ctx.intent
              "Address the user\x27s request comprehensively".data
  let i2 := lookupD audience_instructions ctx.target_audience
              "Tailor content to the audience".data
  let i3 :=
    if ctx.complexity_level = "basic".data then
      "Break down complex ideas into simple, digestible components".data
    else if ctx.complexity_level = "advanced".data then
      "Explore nuanced aspects and advanced implications".data
    else
      "Balance depth with accessibility".data
  let i4 := lookupD format_instructions ctx.output_format
              "Format output appropriately".data
  [i1, i2, i3, i4] ++
    (if ctx.keywords.isEmpty then []
     else ["Ensure coverage of key topics: ".data ++ joinSep ", ".data (ctx.keywords.take 5)])

/-- `tone_constraints` table in `generate_constraints`. -/
def tone_constraints : List (Str × Str) :=
  [ ("professional".data, "Maintain professional tone throughout; avoid casual language".data),
    ("casual".data, "Keep tone conversational and approachable; avoid overly formal language".data),
    ("academic".data, "Use proper citations and academic rigor; maintain scholarly tone".data),
    ("creative".data, "Embrace creative expression while maintaining clarity".data),
    ("persuasive".data, "Build compelling arguments with supporting evidence".data),
    ("educational".data, "Prioritize clarity and learning outcomes".data) ]

/-- `PromptArchitect.generate_constraints` (the architect\x27s `target_llm`
is the first argument). -/
def generate_constraints (target : TargetLLM) (ctx : PromptContext) : List Str :=
  ctx.constraints
  ++ (match target with
      | TargetLLM.CLAUDE_35_SONNET =>
        [ "Prioritize long-form reasoning and detailed explanations".data,
          "Follow instructions precisely and maintain structural consistency".data,
          "Minimize hallucinations by grounding responses in provided context".data ]
      | TargetLLM.GPT_4_TURBO =>
        [ "Balance creativity with accuracy".data,
          "Maintain coherent narrative flow".data ]
      | TargetLLM.GPT_4O =>
        [ "Balance creativity with accuracy".data,
          "Maintain coherent narrative flow".data ]
      | _ => [])
  ++ [ "Maintain factual accuracy and avoid speculation without clear indication".data,
       "Use clear, unambiguous language".data,
       "Ensure logical flow and coherent structure".data ]
  ++ (match tone_constraints.find? (fun p => decide (p.1 = ctx.tone)) with
      | some p => [p.2]
      | none => [])

/-- `category_criteria` table in `generate_quality_criteria`. -/
def category_criteria : List (PromptCategory × Str) :=
  [ (PromptCategory.CONTENT_CREATION, "Engagement: Content is compelling and holds reader interest".data),
    (PromptCategory.AGENT_DEVELOPMENT, "Functionality: System design is practical and implementable".data),
    (PromptCategory.EDUCATIONAL, "Pedagogical value: Content facilitates effective learning".data),
    (PromptCategory.BUSINESS, "Actionability: Recommendations are practical and implementable".data),
    (PromptCategory.TECHNICAL, "Technical accuracy: Code/solutions follow best practices".data),
    (PromptCategory.CREATIVE, "Originality: Content demonstrates creative thinking".data),
    (PromptCategory.ANALYSIS, "Depth: Analysis is thorough and insightful".data),
    (PromptCategory.CONVERSATION, "Naturalness: Responses feel natural and contextually appropriate".data) ]

/-- `PromptArchitect.generate_quality_criteria`. -/
def generate_quality_criteria (ctx : PromptContext) : List Str :=
  [ "Relevance: Response directly addresses the user\x27s request".data,
    "Accuracy: Information is factually correct and reliable".data,
    "Clarity: Content is easy to understand and well-organized".data,
    "Completeness: All aspects of the request are covered".data ]
  ++ (match category_criteria.find? (fun p => decide (p.1 = ctx.category)) with
      | some p => [p.2]
      | none => [])
  ++ (if ctx.tone = "professional".data then
        ["Professionalism: Tone and language are appropriate for professional context".data]
      else if ctx.tone = "educational".data then
        ["Educational value: Content effectively teaches the subject matter".data]
      else [])

/-- `PromptArchitect.generate_examples` (always `None` in the source). -/
def generate_examples (_ctx : PromptContext) : Option (List Str) := none

/-- The numbered-instruction lines of the full prompt
(`for i, instruction in enumerate(instructions, 1)`). -/
def numberedFrom (i : Nat) : List Str → Str
  | [] => []
  | x :: xs => natStr i ++ ". ".data ++ x ++ "\n".data ++ numberedFrom (i + 1) xs

/-- A bulleted block of lines (`f"- {item}\n"`). -/
def bulleted : List Str → Str
  | [] => []
  | x :: xs => "- ".data ++ x ++ "\n".data ++ bulleted xs

/-- The example block (`f"{example}\n\n"` per example). -/
def examplesBlock : List Str → Str
  | [] => []
  | e :: es => e ++ "\n\n".data ++ examplesBlock es

/-- `PromptArchitect.assemble_prompt`. -/
def assemble_prompt (target : TargetLLM) (ctx : PromptContext) : StructuredPrompt :=
  let role_definition := generate_role_definition ctx
  let instructions := generate_instructions ctx
  let constraints := generate_constraints target ctx
  let quality_criteria := generate_quality_criteria ctx
  let examples := generate_examples ctx
  let full_prompt :=
    "# Role Definition\n".data ++ role_definition
    ++ "\n\n# Context\n".data ++ ctx.raw_input
    ++ "\n\n# Instructions\n".data
    ++ numberedFrom 1 instructions
    ++ "\n# Constraints\n".data ++ bulleted constraints
    ++ "\n# Output Format\n".data ++ pyTitle (replUnderscore ctx.output_format) ++ "\n".data
    ++ (match examples with
        | some (e :: es) => "\n# Examples\n".data ++ examplesBlock (e :: es)
        | _ => [])
    ++ "\n# Quality Criteria\n".data ++ bulleted quality_criteria
    ++ "\n# Target Audience\n".data ++ pyTitle (replUnderscore ctx.target_audience) ++ "\n".data
    ++ "\n# Tone\n".data ++ pyTitle ctx.tone ++ "\n".data
  { role_definition := role_definition
    context := ctx.raw_input
    instructions := instructions
    constraints := constraints
    output_format := ctx.output_format
    examples := examples
    quality_criteria := quality_criteria
    full_prompt := full_prompt }

/-- `PromptArchitect.transform`.  The architect object carries no state
beyond its `target_llm` and the immutable lexicon tables, so a pipeline is
represented by its `TargetLLM`. -/
def transform (target : TargetLLM) (raw_input : Str) : StructuredPrompt :=
  assemble_prompt target (extract_context raw_input)

/-- `llm_map` table in `create_architect`. -/
def llm_map : List (Str × TargetLLM) :=
  [ ("claude-3.5-sonnet".data, TargetLLM.CLAUDE_35_SONNET),
    ("claude-3.5-haiku".data, TargetLLM.CLAUDE_35_HAIKU),
    ("gpt-4-turbo".data, TargetLLM.GPT_4_TURBO),
    ("gpt-4o".data, TargetLLM.GPT_4O),
    ("gemini-pro".data, TargetLLM.GEMINI_PRO) ]

/-- `create_architect` factory (`llm_map.get(target_llm, CLAUDE_35_SONNET)`). -/
def create_architect (target_llm : Str) : TargetLLM :=
  match llm_map.find? (fun p => decide (p.1 = target_llm)) with
  | some p => p.2
  | none => TargetLLM.CLAUDE_35_SONNET

example : detect_category "analyze the code for bugs".data = PromptCategory.ANALYSIS := by decide
example : extract_keywords "".data = [] := by decide
example : detect_intent "create a plan".data = "create".data := by decide
example : (generate_instructions (extract_context "".data)).length = 4 := by decide
example : create_architect "unknown-model-xyz".data = TargetLLM.CLAUDE_35_SONNET := by decide

/- ===================== prompt_templates.py ===================== -/

/-- `PromptTemplate` dataclass (`variables` is spelled `varNames` because
`variables` is reserved in Lean). -/
structure PromptTemplate where
  name : Str
  category : Str
  description : Str
  template : Str
  varNames : List Str
  example_values : List (Str × Str)
deriving DecidableEq, Repr

/-- the `"blog_post"` entry of `TemplateLibrary._load_templates`. -/
def blog_post_template : PromptTemplate :=
  { name := "Blog Post Writer".data
    category := "Content Creation".data
    description := "Generate engaging blog posts on any topic".data
    template := "# Role Definition\nYou are an expert content writer and blogger with years of experience creating engaging, SEO-optimized content.\n\n# Task\nWrite a comprehensive blog post about {topic} for {audience}.\n\n# Instructions\n1. Create an attention-grabbing headline\n2. Write an engaging introduction that hooks the reader\n3. Develop {num_sections} main sections with clear subheadings\n4. Include relevant examples and data to support your points\n5. End with a compelling conclusion and call-to-action\n6. Maintain a {tone} tone throughout\n\n# Constraints\n- Target length: {word_count} words\n- Use simple, accessible language\n- Include actionable takeaways\n- Optimize for readability (short paragraphs, bullet points where appropriate)\n\n# Output Format\nMarkdown with proper headers, emphasis, and formatting\n\n# Quality Criteria\n- Engagement: Content captures and maintains reader interest\n- Value: Provides actionable insights and useful information\n- Clarity: Easy to read and understand\n- SEO: Naturally incorporates relevant keywords\n".data
    varNames := ["topic".data, "audience".data, "num_sections".data, "tone".data, "word_count".data]
    example_values := [ ("topic".data, "artificial intelligence in healthcare".data),
      ("audience".data, "healthcare professionals".data),
      ("num_sections".data, "5".data),
      ("tone".data, "professional yet accessible".data),
      ("word_count".data, "1500".data) ] }

/-- the `"chatbot_agent"` entry of `TemplateLibrary._load_templates`. -/
def chatbot_agent_template : PromptTemplate :=
  { name := "Chatbot Agent Developer".data
    category := "Agent Development".data
    description := "Design conversational AI agents with specific personalities and capabilities".data
    template := "# Role Definition\nYou are an advanced AI agent developer specializing in conversational AI systems with expertise in natural language processing and user experience design.\n\n# Task\nDesign a chatbot agent for {use_case} that serves {target_users}.\n\n# Agent Specifications\n- **Purpose**: {purpose}\n- **Personality**: {personality}\n- **Key Capabilities**: {capabilities}\n- **Tone**: {tone}\n\n# Instructions\n1. Define the agent\x27s core personality and communication style\n2. Outline conversation flow and dialogue patterns\n3. Specify how the agent should handle common user intents\n4. Define error handling and fallback responses\n5. Include example conversations demonstrating the agent\x27s capabilities\n6. Specify integration points and technical requirements\n\n# Constraints\n- Maintain consistent personality throughout all interactions\n- Ensure responses are helpful, accurate, and appropriate\n- Handle edge cases and unexpected inputs gracefully\n- Prioritize user experience and satisfaction\n\n# Output Format\nStructured document with:\n- Agent profile\n- Conversation flows\n- Sample dialogues\n- Technical specifications\n\n# Quality Criteria\n- Consistency: Agent maintains personality across all interactions\n- Helpfulness: Effectively assists users in achieving their goals\n- Natural language: Conversations feel natural and engaging\n- Robustness: Handles various inputs and edge cases appropriately\n".data
    varNames := ["use_case".data, "target_users".data, "purpose".data, "personality".data, "capabilities".data, "tone".data]
    example_values := [ ("use_case".data, "customer support".data),
      ("target_users".data, "e-commerce customers".data),
      ("purpose".data, "resolve customer issues and answer product questions".data),
      ("personality".data, "friendly, patient, and solution-oriented".data),
      ("capabilities".data, "order tracking, returns processing, product recommendations".data),
      ("tone".data, "professional yet warm and approachable".data) ] }

/-- the `"tutorial_creator"` entry of `TemplateLibrary._load_templates`. -/
def tutorial_creator_template : PromptTemplate :=
  { name := "Tutorial Creator".data
    category := "Educational".data
    description := "Create comprehensive tutorials and learning materials".data
    template := "# Role Definition\nYou are an experienced educator and instructional designer with expertise in creating effective learning materials for {subject_area}.\n\n# Task\nCreate a comprehensive tutorial on {topic} for {learner_level} learners.\n\n# Learning Objectives\nBy the end of this tutorial, learners will be able to:\n{learning_objectives}\n\n# Instructions\n1. Start with prerequisites and what learners need to know beforehand\n2. Break down the topic into logical, sequential lessons\n3. For each lesson:\n   - Explain the concept clearly with examples\n   - Provide hands-on exercises or practice problems\n   - Include visual aids or diagrams where helpful\n4. Build complexity gradually from basic to advanced\n5. Include checkpoints to assess understanding\n6. Provide additional resources for further learning\n\n# Constraints\n- Use clear, jargon-free language (explain technical terms when necessary)\n- Include practical, real-world examples\n- Make content engaging and interactive\n- Ensure accessibility for diverse learning styles\n\n# Output Format\nStructured tutorial with:\n- Introduction and prerequisites\n- Numbered lessons with clear sections\n- Examples and exercises\n- Summary and next steps\n\n# Quality Criteria\n- Clarity: Concepts are explained in an easy-to-understand manner\n- Progression: Content builds logically from simple to complex\n- Engagement: Material keeps learners interested and motivated\n- Effectiveness: Learners can apply what they\x27ve learned\n".data
    varNames := ["subject_area".data, "topic".data, "learner_level".data, "learning_objectives".data]
    example_values := [ ("subject_area".data, "programming".data),
      ("topic".data, "Python functions and modules".data),
      ("learner_level".data, "beginner".data),
      ("learning_objectives".data, "1. Define and call functions\n2. Use parameters and return values\n3. Import and use modules\n4. Create their own modules".data) ] }

/-- the `"business_strategy"` entry of `TemplateLibrary._load_templates`. -/
def business_strategy_template : PromptTemplate :=
  { name := "Business Strategy Developer".data
    category := "Business".data
    description := "Develop comprehensive business strategies and plans".data
    template := "# Role Definition\nYou are a seasoned business strategist and consultant with extensive experience in {industry} and proven track record of developing successful business strategies.\n\n# Task\nDevelop a comprehensive {strategy_type} strategy for {business_description}.\n\n# Business Context\n- **Industry**: {industry}\n- **Target Market**: {target_market}\n- **Current Situation**: {current_situation}\n- **Goals**: {goals}\n- **Timeline**: {timeline}\n\n# Instructions\n1. Conduct situation analysis (SWOT or similar framework)\n2. Define clear, measurable objectives\n3. Identify key strategies and tactics to achieve objectives\n4. Outline implementation roadmap with milestones\n5. Define success metrics and KPIs\n6. Address potential risks and mitigation strategies\n7. Provide resource requirements and budget considerations\n\n# Constraints\n- Strategies must be realistic and achievable\n- Consider market conditions and competitive landscape\n- Align with business goals and values\n- Focus on actionable recommendations\n\n# Output Format\nStructured business strategy document with:\n- Executive summary\n- Situation analysis\n- Strategic objectives\n- Action plans\n- Metrics and evaluation\n\n# Quality Criteria\n- Feasibility: Strategies are realistic and implementable\n- Alignment: Plans align with business goals and resources\n- Clarity: Recommendations are clear and actionable\n- Impact: Strategies have potential for significant positive impact\n".data
    varNames := ["industry".data, "strategy_type".data, "business_description".data, "target_market".data, "current_situation".data, "goals".data, "timeline".data]
    example_values := [ ("industry".data, "sustainable fashion".data),
      ("strategy_type".data, "market entry".data),
      ("business_description".data, "eco-friendly clothing brand targeting millennials".data),
      ("target_market".data, "environmentally conscious consumers aged 25-40".data),
      ("current_situation".data, "established online presence, planning retail expansion".data),
      ("goals".data, "open 5 physical stores in major cities within 18 months".data),
      ("timeline".data, "18 months".data) ] }

/-- the `"code_generator"` entry of `TemplateLibrary._load_templates`. -/
def code_generator_template : PromptTemplate :=
  { name := "Code Generator".data
    category := "Technical".data
    description := "Generate clean, well-documented code for specific tasks".data
    template := "# Role Definition\nYou are a senior software engineer with expertise in {programming_language} and {domain}, known for writing clean, efficient, and well-documented code.\n\n# Task\nWrite {code_type} in {programming_language} that {functionality}.\n\n# Requirements\n{requirements}\n\n# Instructions\n1. Write clean, readable code following {programming_language} best practices\n2. Include comprehensive comments explaining complex logic\n3. Implement proper error handling\n4. Follow {coding_standard} coding standards\n5. Include docstrings/documentation for functions and classes\n6. Provide usage examples\n7. Consider edge cases and input validation\n\n# Constraints\n- Code must be production-ready and maintainable\n- Follow DRY (Don\x27t Repeat Yourself) principle\n- Optimize for readability over cleverness\n- Include type hints/annotations where applicable\n- No external dependencies unless specified\n\n# Output Format\n- Complete, runnable code\n- Inline comments for complex sections\n- Documentation/docstrings\n- Usage examples\n\n# Quality Criteria\n- Correctness: Code works as intended and handles edge cases\n- Readability: Code is easy to understand and maintain\n- Efficiency: Code performs well and uses resources appropriately\n- Best practices: Follows language conventions and design patterns\n".data
    varNames := ["programming_language".data, "domain".data, "code_type".data, "functionality".data, "requirements".data, "coding_standard".data]
    example_values := [ ("programming_language".data, "Python".data),
      ("domain".data, "data processing".data),
      ("code_type".data, "a class".data),
      ("functionality".data, "reads CSV files, performs data validation, and generates summary statistics".data),
      ("requirements".data, "- Support multiple CSV formats\n- Validate data types\n- Handle missing values\n- Generate mean, median, mode statistics\n- Export results to JSON".data),
      ("coding_standard".data, "PEP 8".data) ] }

/-- the `"data_analyst"` entry of `TemplateLibrary._load_templates`. -/
def data_analyst_template : PromptTemplate :=
  { name := "Data Analysis Expert".data
    category := "Analysis".data
    description := "Perform comprehensive data analysis and generate insights".data
    template := "# Role Definition\nYou are a data analyst and research specialist with expertise in {analysis_domain} and strong skills in statistical analysis and data interpretation.\n\n# Task\nAnalyze {data_description} and provide comprehensive insights about {analysis_focus}.\n\n# Analysis Requirements\n- **Data Source**: {data_source}\n- **Key Questions**: {key_questions}\n- **Analysis Type**: {analysis_type}\n- **Deliverables**: {deliverables}\n\n# Instructions\n1. Describe the dataset and its characteristics\n2. Perform exploratory data analysis\n3. Apply appropriate statistical methods or analytical techniques\n4. Identify patterns, trends, and anomalies\n5. Generate actionable insights and recommendations\n6. Visualize key findings (describe visualizations if you can\x27t create them)\n7. Address limitations and potential biases\n\n# Constraints\n- Base conclusions on data evidence\n- Acknowledge uncertainty and limitations\n- Use appropriate statistical methods\n- Present findings clearly for {audience}\n- Avoid overgeneralization\n\n# Output Format\nStructured analysis report with:\n- Executive summary\n- Data description\n- Methodology\n- Findings and insights\n- Recommendations\n- Appendices (if needed)\n\n# Quality Criteria\n- Rigor: Analysis uses appropriate methods and is thorough\n- Accuracy: Findings are supported by data\n- Clarity: Results are presented in an understandable way\n- Actionability: Insights lead to practical recommendations\n".data
    varNames := ["analysis_domain".data, "data_description".data, "analysis_focus".data, "data_source".data, "key_questions".data, "analysis_type".data, "deliverables".data, "audience".data]
    example_values := [ ("analysis_domain".data, "customer behavior".data),
      ("data_description".data, "6 months of e-commerce transaction data".data),
      ("analysis_focus".data, "customer purchase patterns and retention".data),
      ("data_source".data, "company database with 50,000 transactions".data),
      ("key_questions".data, "What factors influence repeat purchases? Which customer segments are most valuable?".data),
      ("analysis_type".data, "descriptive and predictive analysis".data),
      ("deliverables".data, "insights report with visualizations and recommendations".data),
      ("audience".data, "marketing team and executives".data) ] }

/-- the `"story_writer"` entry of `TemplateLibrary._load_templates`. -/
def story_writer_template : PromptTemplate :=
  { name := "Creative Story Writer".data
    category := "Creative".data
    description := "Write engaging stories and narratives".data
    template := "# Role Definition\nYou are a creative writer and storyteller with expertise in {genre} and a talent for crafting compelling narratives that captivate readers.\n\n# Task\nWrite a {story_type} in the {genre} genre about {premise}.\n\n# Story Parameters\n- **Setting**: {setting}\n- **Main Characters**: {characters}\n- **Tone**: {tone}\n- **Length**: {length}\n- **Target Audience**: {audience}\n\n# Instructions\n1. Create a compelling opening that hooks the reader\n2. Develop well-rounded characters with clear motivations\n3. Build tension and conflict throughout the narrative\n4. Use vivid descriptions and sensory details\n5. Maintain consistent pacing appropriate for the genre\n6. Include dialogue that reveals character and advances plot\n7. Craft a satisfying resolution\n\n# Constraints\n- Stay true to the genre conventions while being original\n- Maintain consistent point of view\n- Ensure character actions are motivated and believable\n- Keep the tone consistent with the target audience\n- Show, don\x27t tell (use action and dialogue over exposition)\n\n# Output Format\nComplete narrative with:\n- Clear beginning, middle, and end\n- Proper formatting and paragraphing\n- Dialogue formatted correctly\n\n# Quality Criteria\n- Engagement: Story captures and maintains reader interest\n- Character development: Characters feel real and relatable\n- Plot coherence: Story flows logically and satisfyingly\n- Originality: Story offers fresh perspective or unique elements\n".data
    varNames := ["genre".data, "story_type".data, "premise".data, "setting".data, "characters".data, "tone".data, "length".data, "audience".data]
    example_values := [ ("genre".data, "science fiction".data),
      ("story_type".data, "short story".data),
      ("premise".data, "a scientist discovers a way to communicate with parallel universes".data),
      ("setting".data, "near-future research facility".data),
      ("characters".data, "Dr. Sarah Chen (protagonist), her skeptical colleague Marcus".data),
      ("tone".data, "thoughtful and mysterious with moments of wonder".data),
      ("length".data, "2000-3000 words".data),
      ("audience".data, "adult readers who enjoy thought-provoking sci-fi".data) ] }

/-- `TemplateLibrary.templates` (`_load_templates`), as an insertion-ordered association list. -/
def templatesCatalog : List (Str × PromptTemplate) :=
  [ ("blog_post".data, blog_post_template),
    ("chatbot_agent".data, chatbot_agent_template),
    ("tutorial_creator".data, tutorial_creator_template),
    ("business_strategy".data, business_strategy_template),
    ("code_generator".data, code_generator_template),
    ("data_analyst".data, data_analyst_template),
    ("story_writer".data, story_writer_template) ]
/-- `TemplateLibrary.get_template` (`self.templates.get(template_name)`). -/
def get_template (template_name : Str) : Option PromptTemplate :=
  (templatesCatalog.find? (fun p => decide (p.1 = template_name))).map Prod.snd

/-- `TemplateLibrary.list_templates`. -/
def list_templates : List Str := templatesCatalog.map Prod.fst

/-- `TemplateLibrary.fill_template`: look the template up (raising
`ValueError` — modelled as `Except.error` — when absent), then apply
`str.replace` once per supplied variable, in the iteration order of the
supplied values map. -/
def fill_template (template_name : Str) (values : List (Str × Str)) : Except Str Str :=
  match get_template template_name with
  | none => Except.error ("Template \x27".data ++ template_name ++ "\x27 not found".data)
  | some t => Except.ok (values.foldl (fun acc p => replaceAll (ph p.1) p.2 acc) t.template)

example : (fill_template "no_such".data []).isOk = false := by decide
example : (fill_template "blog_post".data []).toOption = some blog_post_template.template := by decide

/- ===================== generic lemmas ===================== -/

theorem occursIn_false_of_disjoint (q : Char → Bool) (pat hay : Str)
    (hp : pat.any q = true) (hh : ∀ c ∈ hay, q c = false) :
    occursIn pat hay = false := by
  induction hay with
  | nil =>
    cases pat with
    | nil => simp at hp
    | cons a l => rfl
  | cons c t ih =>
    have ht : ∀ x ∈ t, q x = false := fun x hx => hh x (List.mem_cons_of_mem _ hx)
    have hpre : pat.isPrefixOf (c :: t) = false := by
      by_contra hne
      have hb : pat.isPrefixOf (c :: t) = true := by
        cases hb2 : pat.isPrefixOf (c :: t) with
        | false => exact absurd hb2 hne
        | true => rfl
      have hsub : pat ⊆ c :: t :=
        (List.isPrefixOf_iff_prefix.mp hb).sublist.subset
      obtain ⟨x, hx, hqx⟩ := List.any_eq_true.mp hp
      have := hh x (hsub hx)
      rw [this] at hqx
      exact Bool.false_ne_true hqx
    simp [occursIn, hpre, ih ht]

theorem isPrefixOf_append_of_isPrefixOf (pat a b : Str)
    (h : pat.isPrefixOf a = true) : pat.isPrefixOf (a ++ b) = true := by
  rw [List.isPrefixOf_iff_prefix] at h ⊢
  exact h.trans (List.prefix_append a b)

/-- An early character clash between `pat` and `l`, making `pat` a prefix
of no extension of `l`. -/
def divergesEarly : Str → Str → Bool
  | [], _ => false
  | _, [] => false
  | a :: as, b :: bs => a != b || divergesEarly as bs

theorem not_isPrefixOf_of_divergesEarly (pat l x : Str)
    (h : divergesEarly pat l = true) : pat.isPrefixOf (l ++ x) = false := by
  induction pat generalizing l with
  | nil => simp [divergesEarly] at h
  | cons a as ih =>
    cases l with
    | nil => simp [divergesEarly] at h
    | cons b bs =>
      simp only [divergesEarly, Bool.or_eq_true, bne_iff_ne] at h
      rcases h with h | h
      · simp [List.isPrefixOf, beq_eq_false_iff_ne.mpr h]
      · simp [List.isPrefixOf, ih bs h]

theorem countOcc_eq_zero_of_not_occursIn (pat hay : Str)
    (h : occursIn pat hay = false) : countOcc pat hay = 0 := by
  induction hay with
  | nil => rfl
  | cons c t ih =>
    simp only [occursIn, Bool.or_eq_false_iff] at h
    simp [countOcc, h.1, ih h.2]

/- Bool-level absence of the character `#`. -/
def noHashB (s : Str) : Bool := s.all (fun c => !(c == '#'))

theorem noHashB_append (a b : Str) (ha : noHashB a = true) (hb : noHashB b = true) :
    noHashB (a ++ b) = true := by
  simp only [noHashB, List.all_append, Bool.and_eq_true]
  exact ⟨ha, hb⟩

theorem ne_hash_of_mem_noHashB (s : Str) (h : noHashB s = true) (c : Char) (hc : c ∈ s) :
    (c == '#') = false := by
  have := List.all_eq_true.mp h c hc
  simpa using this

theorem countOcc_append_noHashB (pr a b : Str) (ha : noHashB a = true) :
    countOcc ('#' :: pr) (a ++ b) = countOcc ('#' :: pr) b := by
  induction a with
  | nil => rfl
  | cons c t ih =>
    have hc : (c == '#') = false := ne_hash_of_mem_noHashB _ ha c (List.mem_cons_self c t)
    have hc2 : ('#' == c) = false := by
      cases hb : ('#' == c) with
      | false => rfl
      | true =>
        have : '#' = c := eq_of_beq hb
        subst this
        simp at hc
    have ht : noHashB t = true := by
      simp only [noHashB, List.all_cons, Bool.and_eq_true] at ha
      exact ha.2
    simp [countOcc, List.isPrefixOf, hc2, ih ht]

theorem countOcc_eq_zero_of_noHashB (pr hay : Str) (h : noHashB hay = true) :
    countOcc ('#' :: pr) hay = 0 := by
  have := countOcc_append_noHashB pr hay [] h
  simpa using this

theorem countOcc_cons_ne (pat : Str) (a c : Char) (pr rest : Str)
    (hpat : pat = a :: pr) (hne : (a == c) = false) :
    countOcc pat (c :: rest) = countOcc pat rest := by
  subst hpat
  simp [countOcc, List.isPrefixOf, hne]

theorem isPrefixOf_stops_at_nl (pat : Str) (hnl : pat.all (fun c => !(c == '\n')) = true) :
    ∀ a b : Str, pat.isPrefixOf (a ++ '\n' :: b) = pat.isPrefixOf a := by
  induction pat with
  | nil => intro a b; simp [List.isPrefixOf]
  | cons p ps ih =>
    intro a b
    have hp : (p == '\n') = false := by
      have := List.all_eq_true.mp hnl p (List.mem_cons_self p ps)
      simpa using this
    have hps : ps.all (fun c => !(c == '\n')) = true := by
      simp only [List.all_cons, Bool.and_eq_true] at hnl
      exact hnl.2
    cases a with
    | nil => simp [List.isPrefixOf, hp]
    | cons x xs => simp [List.isPrefixOf, ih hps xs b]

theorem countOcc_split_at_nl (pat : Str) (hne : pat ≠ [])
    (hnl : pat.all (fun c => !(c == '\n')) = true) :
    ∀ a b : Str, countOcc pat (a ++ '\n' :: b) = countOcc pat a + countOcc pat b := by
  intro a b
  induction a with
  | nil =>
    have hp : pat.isPrefixOf ('\n' :: b) = false := by
      cases pat with
      | nil => exact absurd rfl hne
      | cons p ps =>
        have hp0 : (p == '\n') = false := by
          have := List.all_eq_true.mp hnl p (List.mem_cons_self p ps)
          simpa using this
        simp [List.isPrefixOf, hp0]
    simp [countOcc, hp]
  | cons c t ih =>
    have key := isPrefixOf_stops_at_nl pat hnl (c :: t) b
    simp only [List.cons_append] at key ⊢
    simp only [countOcc, ih, key]
    omega

theorem countOcc_hash_lit (pat pr lt rest : Str) (hpat : pat = '#' :: pr)
    (hlt : noHashB lt = true)
    (hd : divergesEarly pat ('#' :: lt) = true ∨ pat.isPrefixOf ('#' :: lt) = true) :
    countOcc pat (('#' :: lt) ++ rest) =
      (if pat.isPrefixOf ('#' :: lt) then 1 else 0) + countOcc pat rest := by
  have htail : countOcc pat (lt ++ rest) = countOcc pat rest := by
    subst hpat
    exact countOcc_append_noHashB pr lt rest hlt
  rcases hd with hd | hd
  · have h1 : pat.isPrefixOf (('#' :: lt) ++ rest) = false :=
      not_isPrefixOf_of_divergesEarly pat ('#' :: lt) rest hd
    have h2 : pat.isPrefixOf ('#' :: lt) = false := by
      have := not_isPrefixOf_of_divergesEarly pat ('#' :: lt) [] hd
      simpa using this
    simp only [List.cons_append] at h1 ⊢
    simp only [countOcc, htail, h1, h2]
  · have h1 : pat.isPrefixOf (('#' :: lt) ++ rest) = true :=
      isPrefixOf_append_of_isPrefixOf pat ('#' :: lt) rest hd
    simp only [List.cons_append] at h1 ⊢
    simp only [countOcc, htail, h1, hd]

/- ===================== claims: C1, C3, C6, C9 ===================== -/

/-- C1: for every input string `s` and every target identifier `t`, two
calls to `transform` on the pipeline created for `t` return identical
`StructuredPrompt` values.  In the embedding the architect carries no
state beyond its resolved `TargetLLM` (the lexicon tables are global
constants), so `transform` is a pure function and the two calls denote
the same value, every field included. -/
theorem C1_transform_deterministic :
    ∀ (t : Str) (s : Str),
      transform (create_architect t) s = transform (create_architect t) s ∧
      (transform (create_architect t) s).full_prompt
        = (transform (create_architect t) s).full_prompt := by
  intro t s
  exact ⟨rfl, rfl⟩

/-- C3: category detection scans the trigger table in the fixed priority
order analysis, agent_development, technical, educational, creative,
business, content_creation, conversation; it returns the first category
with a trigger-substring match in the lowered input and
`content_creation` when none matches; for "analyze the code for bugs"
it returns analysis and not technical. -/
theorem C3_category_priority :
    category_keywords.map Prod.fst =
      [PromptCategory.ANALYSIS, PromptCategory.AGENT_DEVELOPMENT,
       PromptCategory.TECHNICAL, PromptCategory.EDUCATIONAL,
       PromptCategory.CREATIVE, PromptCategory.BUSINESS,
       PromptCategory.CONTENT_CREATION, PromptCategory.CONVERSATION] ∧
    (∀ s : Str,
      detect_category s =
        ((category_keywords.find?
            (fun p => p.2.any (fun k => occursIn k (lower s)))).map
          Prod.fst).getD PromptCategory.CONTENT_CREATION) ∧
    detect_category "analyze the code for bugs".data = PromptCategory.ANALYSIS ∧
    detect_category "analyze the code for bugs".data ≠ PromptCategory.TECHNICAL := by
  refine ⟨rfl, ?_, by decide, by decide⟩
  intro s
  simp only [detect_category]
  cases hf : category_keywords.find? (fun p => p.2.any (fun k => occursIn k (lower s))) with
  | none => rfl
  | some p => rfl

/-- C6: the assembled instruction list always has length 4 or 5, and has
length 5 exactly when the context\x27s keyword list is non-empty. -/
theorem C6_instruction_count :
    ∀ ctx : PromptContext,
      ((generate_instructions ctx).length = 4 ∨ (generate_instructions ctx).length = 5) ∧
      ((generate_instructions ctx).length = 5 ↔ ctx.keywords ≠ []) := by
  intro ctx
  by_cases hk : ctx.keywords = []
  · have h : ctx.keywords.isEmpty = true := by simp [List.isEmpty_iff, hk]
    simp [generate_instructions, h, hk]
  · have h : ctx.keywords.isEmpty = false := by
      simp [List.isEmpty_iff]
      exact hk
    simp [generate_instructions, h, hk]

/-- C9: the pipeline factory is total; every identifier resolves to one of
the five supported targets, the unrecognized identifier
"unknown-model-xyz" resolves to the default `claude-3.5-sonnet` target,
and its pipeline\x27s `transform` output coincides with the default
profile\x27s output on every input. -/
theorem C9_factory_fallback :
    (∀ t : Str, create_architect t ∈
      [TargetLLM.CLAUDE_35_SONNET, TargetLLM.CLAUDE_35_HAIKU,
       TargetLLM.GPT_4_TURBO, TargetLLM.GPT_4O, TargetLLM.GEMINI_PRO]) ∧
    create_architect "unknown-model-xyz".data = TargetLLM.CLAUDE_35_SONNET ∧
    (∀ s : Str, transform (create_architect "unknown-model-xyz".data) s
        = transform TargetLLM.CLAUDE_35_SONNET s) ∧
    create_architect "claude-3.5-sonnet".data = TargetLLM.CLAUDE_35_SONNET := by
  refine ⟨?_, by decide, fun s => rfl, by decide⟩
  intro t
  unfold create_architect
  cases hf : llm_map.find? (fun p => decide (p.1 = t)) with
  | none => simp
  | some p =>
    have hp := List.mem_of_find?_eq_some hf
    fin_cases hp <;> simp

/- ===================== C5: keyword extraction ===================== -/

theorem dedupFirst_sublist : ∀ (l : List Str) (seen : List Str),
    (dedupFirst seen l).Sublist l := by
  intro l
  induction l with
  | nil => intro seen; simp [dedupFirst]
  | cons x xs ih =>
    intro seen
    by_cases h : seen.contains x
    · simp only [dedupFirst, h, if_true]
      exact (ih seen).cons x
    · simp only [dedupFirst, h, if_false]
      exact (ih (x :: seen)).cons₂ x

theorem dedupFirst_spec : ∀ (l : List Str) (seen : List Str),
    (dedupFirst seen l).Nodup ∧ ∀ x ∈ dedupFirst seen l, ¬ x ∈ seen := by
  intro l
  induction l with
  | nil => intro seen; simp [dedupFirst]
  | cons x xs ih =>
    intro seen
    by_cases h : seen.contains x
    · simp only [dedupFirst, h, if_true]
      exact ih seen
    · simp only [dedupFirst, h, if_false]
      obtain ⟨hnd, hmem⟩ := ih (x :: seen)
      have hx : ¬ x ∈ dedupFirst (x :: seen) xs := fun hx =>
        hmem x hx (List.mem_cons_self x seen)
      refine ⟨List.nodup_cons.mpr ⟨hx, hnd⟩, ?_⟩
      intro y hy hyseen
      rcases List.mem_cons.mp hy with rfl | hy2
      · exact h (List.elem_eq_true_of_mem hyseen)
      · exact hmem y hy2 (List.mem_cons_of_mem x hyseen)

/-- C5: for every input, the extracted keyword list has at most 10
elements, is duplicate-free, each keyword is a lower-case-ASCII token of
length greater than 3 outside the stop-word list, and the keyword list is
a subsequence of the alphabetic tokens of the lowered input (preserving
first-occurrence order). -/
theorem C5_keyword_bound :
    ∀ s : Str,
      (extract_keywords s).length ≤ 10 ∧
      (extract_keywords s).Nodup ∧
      (∀ w ∈ extract_keywords s,
        w.all isAZ = true ∧ ¬ w ∈ stop_words ∧ 3 < w.length) ∧
      (extract_keywords s).Sublist (findWords (lower s)) := by
  intro s
  simp only [extract_keywords]
  set words := findWords (lower s) with hwords
  set kws := words.filter (fun w => !stop_words.contains w && 3 < w.length) with hkws
  have hsub1 : ((dedupFirst [] kws).take 10).Sublist (dedupFirst [] kws) :=
    List.take_sublist 10 _
  have hsub2 : (dedupFirst [] kws).Sublist kws := dedupFirst_sublist kws []
  have hsub3 : kws.Sublist words := List.filter_sublist words
  refine ⟨?_, ?_, ?_, ?_⟩
  · simp [List.length_take]
  · exact ((dedupFirst_spec kws []).1).sublist hsub1
  · intro w hw
    have hw1 : w ∈ kws := hsub2.subset (hsub1.subset hw)
    obtain ⟨hw2, hq⟩ := List.mem_filter.mp hw1
    have hq2 : ¬ w ∈ stop_words ∧ 3 < w.length := by simpa using hq
    have hw3 := (List.mem_filter.mp hw2).2
    exact ⟨hw3, hq2.1, hq2.2⟩
  · exact (hsub1.trans hsub2).trans hsub3

/- ===================== C2: totality and defaults ===================== -/

/-- Input with no ASCII letters and no ASCII digits: nothing can match a
trigger keyword, the word-count regex, or the keyword tokenizer (this is
the "no trigger matches" situation, e.g. empty or whitespace-only input). -/
def noAlnum (s : Str) : Bool := s.all (fun c => !(isAsciiAlpha c || isAsciiDigit c))

theorem pyLowerChar_alpha_eq (c : Char) :
    isAsciiAlpha (pyLowerChar c) = isAsciiAlpha c := by
  unfold pyLowerChar
  split <;> rfl

theorem pyLowerChar_digit_eq (c : Char) :
    isAsciiDigit (pyLowerChar c) = isAsciiDigit c := by
  unfold pyLowerChar
  split <;> rfl

theorem lower_no_alpha (s : Str) (h : noAlnum s = true) :
    ∀ c ∈ lower s, isAsciiAlpha c = false := by
  intro c hc
  obtain ⟨a, ha, rfl⟩ := List.mem_map.mp hc
  have := List.all_eq_true.mp h a ha
  rw [pyLowerChar_alpha_eq]
  rcases Bool.or_eq_false_iff.mp (by simpa using this) with ⟨h1, _⟩
  exact h1

theorem lower_no_digit (s : Str) (h : noAlnum s = true) :
    ∀ c ∈ lower s, isAsciiDigit c = false := by
  intro c hc
  obtain ⟨a, ha, rfl⟩ := List.mem_map.mp hc
  have := List.all_eq_true.mp h a ha
  rw [pyLowerChar_digit_eq]
  rcases Bool.or_eq_false_iff.mp (by simpa using this) with ⟨_, h2⟩
  exact h2

theorem find?_none_of_no_alpha {α : Type} (table : List (α × List Str)) (tl : Str)
    (htab : table.all (fun p => p.2.all (fun k => k.any isAsciiAlpha)) = true)
    (hh : ∀ c ∈ tl, isAsciiAlpha c = false) :
    table.find? (fun p => p.2.any (fun k => occursIn k tl)) = none := by
  rw [List.find?_eq_none]
  intro p hp hany
  obtain ⟨k, hk, hocc⟩ := List.any_eq_true.mp hany
  have hkal : k.any isAsciiAlpha = true :=
    List.all_eq_true.mp (List.all_eq_true.mp htab p hp) k hk
  have hfalse := occursIn_false_of_disjoint isAsciiAlpha k tl hkal (fun c hc => hh c hc)
  rw [hfalse] at hocc
  exact Bool.false_ne_true hocc

theorem occursIn_false_no_alpha (k tl : Str) (hk : k.any isAsciiAlpha = true)
    (hh : ∀ c ∈ tl, isAsciiAlpha c = false) : occursIn k tl = false :=
  occursIn_false_of_disjoint isAsciiAlpha k tl hk hh

theorem findWordCount_none (tl : Str) (hh : ∀ c ∈ tl, isAsciiDigit c = false) :
    findWordCount tl = none := by
  induction tl with
  | nil => rfl
  | cons c t ih =>
    have hc : isAsciiDigit c = false := hh c (List.mem_cons_self c t)
    have ht : ∀ x ∈ t, isAsciiDigit x = false := fun x hx => hh x (List.mem_cons_of_mem c hx)
    simp [findWordCount, hc, ih ht]

theorem splitRunsGo_mem_chars (p : Char → Bool) :
    ∀ (s cur : Str) (w : Str), w ∈ splitRunsGo p cur s → ∀ c ∈ w, c ∈ cur ∨ c ∈ s := by
  intro s
  induction s with
  | nil =>
    intro cur w hw c hc
    by_cases hcur : cur.isEmpty
    · simp [splitRunsGo, hcur] at hw
    · simp only [splitRunsGo, hcur, if_false, Bool.false_eq_true, List.mem_singleton] at hw
      subst hw
      exact Or.inl (List.mem_reverse.mp hc)
  | cons a t ih =>
    intro cur w hw c hc
    by_cases hpa : p a
    · simp only [splitRunsGo, hpa, if_true] at hw
      rcases ih (a :: cur) w hw c hc with h1 | h2
      · rcases List.mem_cons.mp h1 with rfl | h3
        · exact Or.inr (List.mem_cons_self c t)
        · exact Or.inl h3
      · exact Or.inr (List.mem_cons_of_mem a h2)
    · by_cases hcur : cur.isEmpty
      · simp only [splitRunsGo, hpa, if_false, hcur, if_true, Bool.false_eq_true] at hw
        rcases ih [] w hw c hc with h1 | h2
        · simp at h1
        · exact Or.inr (List.mem_cons_of_mem a h2)
      · simp only [splitRunsGo, hpa, hcur, if_false, Bool.false_eq_true, List.mem_cons] at hw
        rcases hw with rfl | hw2
        · exact Or.inl (List.mem_reverse.mp hc)
        · rcases ih [] w hw2 c hc with h1 | h2
          · simp at h1
          · exact Or.inr (List.mem_cons_of_mem a h2)

theorem findWords_mem_chars (x w : Str) (hw : w ∈ findWords x) : ∀ c ∈ w, c ∈ x := by
  intro c hc
  have hw2 : w ∈ splitRuns isWordChar x := (List.mem_filter.mp hw).1
  rcases splitRunsGo_mem_chars isWordChar x [] w hw2 c hc with h1 | h2
  · simp at h1
  · exact h2

theorem extract_keywords_nil (s : Str) (h : noAlnum s = true) :
    extract_keywords s = [] := by
  have hh := lower_no_alpha s h
  simp only [extract_keywords]
  have hfil :
      (findWords (lower s)).filter (fun w => !stop_words.contains w && 3 < w.length) = [] := by
    rw [List.filter_eq_nil_iff]
    intro w hw hq
    have hlen : 3 < w.length := by
      have h2 : ¬ w ∈ stop_words ∧ 3 < w.length := by simpa using hq
      exact h2.2
    have hne : w ≠ [] := by
      intro hnil
      rw [hnil] at hlen
      simp at hlen
    obtain ⟨c, hc⟩ := List.exists_mem_of_ne_nil w hne
    have hall : w.all isAZ = true := (List.mem_filter.mp hw).2
    have hcz : isAZ c = true := List.all_eq_true.mp hall c hc
    have hca : isAsciiAlpha c = true := by
      simp only [isAZ, Bool.and_eq_true] at hcz
      simp [isAsciiAlpha, Bool.or_eq_true, hcz.1, hcz.2]
    have hcs : c ∈ lower s := findWords_mem_chars (lower s) w hw c hc
    rw [hh c hcs] at hca
    exact Bool.false_ne_true hca
  rw [hfil]
  rfl

theorem detect_intent_default (s : Str) (h : noAlnum s = true) :
    detect_intent s = "general_assistance".data := by
  have hh := lower_no_alpha s h
  have htab : intent_keywords.all (fun p => p.2.all (fun k => k.any isAsciiAlpha)) = true := by
    decide
  simp only [detect_intent]
  have hfil :
      (intent_keywords.map
        (fun p => (p.1, p.2.countP (fun k => occursIn k (lower s))))).filter
          (fun p => 0 < p.2) = [] := by
    rw [List.filter_eq_nil_iff]
    intro q hq
    obtain ⟨p, hp, rfl⟩ := List.mem_map.mp hq
    have hz : p.2.countP (fun k => occursIn k (lower s)) = 0 := by
      rw [List.countP_eq_zero]
      intro k hk hocc
      have hkal : k.any isAsciiAlpha = true :=
        List.all_eq_true.mp (List.all_eq_true.mp htab p hp) k hk
      rw [occursIn_false_no_alpha k (lower s) hkal hh] at hocc
      exact Bool.false_ne_true hocc
    simp [hz]
  rw [hfil]

theorem detect_category_default (s : Str) (h : noAlnum s = true) :
    detect_category s = PromptCategory.CONTENT_CREATION := by
  have hh := lower_no_alpha s h
  have htab : category_keywords.all (fun p => p.2.all (fun k => k.any isAsciiAlpha)) = true := by
    decide
  simp only [detect_category]
  rw [find?_none_of_no_alpha category_keywords (lower s) htab hh]

theorem detect_audience_default (s : Str) (h : noAlnum s = true) :
    detect_audience s = "general_public".data := by
  have hh := lower_no_alpha s h
  have htab : audiences.all (fun p => p.2.all (fun k => k.any isAsciiAlpha)) = true := by
    decide
  simp only [detect_audience]
  rw [find?_none_of_no_alpha audiences (lower s) htab hh]

theorem detect_tone_default (s : Str) (h : noAlnum s = true) :
    detect_tone s = "professional".data := by
  have hh := lower_no_alpha s h
  have htab : tone_indicators.all (fun p => p.2.all (fun k => k.any isAsciiAlpha)) = true := by
    decide
  simp only [detect_tone]
  rw [find?_none_of_no_alpha tone_indicators (lower s) htab hh]

theorem detect_output_format_default (s : Str) (h : noAlnum s = true) :
    detect_output_format s = "paragraph".data := by
  have hh := lower_no_alpha s h
  have htab : formats.all (fun p => p.2.all (fun k => k.any isAsciiAlpha)) = true := by
    decide
  simp only [detect_output_format]
  rw [find?_none_of_no_alpha formats (lower s) htab hh]

theorem extract_constraints_nil (s : Str) (h : noAlnum s = true) :
    extract_constraints s = [] := by
  have hh := lower_no_alpha s h
  have hd := lower_no_digit s h
  have hocc : ∀ k : Str, k.any isAsciiAlpha = true → occursIn k (lower s) = false :=
    fun k hk => occursIn_false_no_alpha k (lower s) hk hh
  simp only [extract_constraints]
  rw [hocc "short".data (by decide), hocc "brief".data (by decide),
    hocc "detailed".data (by decide), hocc "comprehensive".data (by decide),
    hocc "quick".data (by decide), hocc "fast".data (by decide),
    hocc "accurate".data (by decide), hocc "precise".data (by decide),
    hocc "simple".data (by decide), hocc "easy".data (by decide),
    findWordCount_none (lower s) hd]
  rfl

theorem determine_complexity_default (s : Str) (h : noAlnum s = true) :
    determine_complexity s = "intermediate".data := by
  have hh := lower_no_alpha s h
  have hocc : ∀ k : Str, k.any isAsciiAlpha = true → occursIn k (lower s) = false :=
    fun k hk => occursIn_false_no_alpha k (lower s) hk hh
  simp only [determine_complexity]
  split
  · exfalso
    rename_i hcond
    obtain ⟨k, hk, hkocc⟩ := List.any_eq_true.mp hcond
    fin_cases hk <;> rw [hocc _ (by decide)] at hkocc <;> exact Bool.false_ne_true hkocc
  · split
    · exfalso
      rename_i hcond
      obtain ⟨k, hk, hkocc⟩ := List.any_eq_true.mp hcond
      fin_cases hk <;> rw [hocc _ (by decide)] at hkocc <;> exact Bool.false_ne_true hkocc
    · rfl

/-- C2: `extract_context` is total (it is a Lean function), and on any
input with no letters and no digits — in particular the empty string and
whitespace-only strings, where no trigger can match — every field takes
its documented default: intent `general_assistance`, category
`content_creation`, audience `general_public`, tone `professional`,
output format `paragraph`, complexity `intermediate`, and empty
constraint and keyword lists. -/
theorem C2_totality_defaults (s : Str) (h : noAlnum s = true) :
    extract_context s =
      { raw_input := s
        intent := "general_assistance".data
        category := PromptCategory.CONTENT_CREATION
        target_audience := "general_public".data
        tone := "professional".data
        output_format := "paragraph".data
        constraints := []
        keywords := []
        complexity_level := "intermediate".data } := by
  simp only [extract_context]
  rw [detect_intent_default s h, detect_category_default s h,
    detect_audience_default s h, detect_tone_default s h,
    detect_output_format_default s h, extract_constraints_nil s h,
    extract_keywords_nil s h, determine_complexity_default s h]

/-- C2 witness: the defaults at the empty string and at a
whitespace/punctuation-only string. -/
theorem C2_totality_defaults_witness :
    extract_context "".data =
      { raw_input := "".data
        intent := "general_assistance".data
        category := PromptCategory.CONTENT_CREATION
        target_audience := "general_public".data
        tone := "professional".data
        output_format := "paragraph".data
        constraints := []
        keywords := []
        complexity_level := "intermediate".data } ∧
    extract_context "  ?! - \n".data =
      { raw_input := "  ?! - \n".data
        intent := "general_assistance".data
        category := PromptCategory.CONTENT_CREATION
        target_audience := "general_public".data
        tone := "professional".data
        output_format := "paragraph".data
        constraints := []
        keywords := []
        complexity_level := "intermediate".data } :=
  ⟨C2_totality_defaults "".data (by decide),
   C2_totality_defaults "  ?! - \n".data (by decide)⟩

/- ===================== C4: intent detection ===================== -/

theorem maxByFirst_spec (l : List (Str × Nat)) : ∀ (b : Str × Nat),
    ∃ pre m post, b :: l = pre ++ m :: post ∧ maxByFirst b l = m ∧
      (∀ r ∈ b :: l, r.2 ≤ m.2) ∧ (∀ r ∈ pre, r.2 < m.2) := by
  induction l with
  | nil =>
    intro b
    refine ⟨[], b, [], rfl, rfl, ?_, by simp⟩
    intro r hr
    rcases List.mem_singleton.mp hr with rfl
    exact Nat.le_refl _
  | cons p t ih =>
    intro b
    by_cases hlt : b.2 < p.2
    · obtain ⟨pre, m, post, hdec, hmax, hall, hpre⟩ := ih p
      have hple : p.2 ≤ m.2 := hall p (List.mem_cons_self p t)
      refine ⟨b :: pre, m, post, ?_, ?_, ?_, ?_⟩
      · rw [List.cons_append, ← hdec]
      · simp [maxByFirst, hlt, hmax]
      · intro r hr
        rcases List.mem_cons.mp hr with rfl | hr2
        · exact Nat.le_trans (Nat.le_of_lt hlt) hple
        · exact hall r hr2
      · intro r hr
        rcases List.mem_cons.mp hr with rfl | hr2
        · exact Nat.lt_of_lt_of_le hlt hple
        · exact hpre r hr2
    · obtain ⟨pre, m, post, hdec, hmax, hall, hpre⟩ := ih b
      cases pre with
      | nil =>
        simp only [List.nil_append] at hdec
        rw [List.cons.injEq] at hdec
        have hmb : m = b ∧ post = t := ⟨hdec.1.symm, hdec.2.symm⟩
        refine ⟨[], m, p :: post, ?_, ?_, ?_, by simp⟩
        · rw [List.nil_append, hmb.1, hmb.2]
        · simp [maxByFirst, hlt, hmax]
        · intro r hr
          rcases List.mem_cons.mp hr with rfl | hr2
          · exact hall r (List.mem_cons_self r t)
          · rcases List.mem_cons.mp hr2 with rfl | hr3
            · rw [hmb.1]
              exact Nat.le_of_not_lt hlt
            · exact hall r (List.mem_cons_of_mem b hr3)
      | cons x pre' =>
        have hxt : b = x ∧ t = pre' ++ m :: post := by
          rw [List.cons_append, List.cons.injEq] at hdec
          exact hdec
        have hbpre : b ∈ x :: pre' := by
          rw [← hxt.1]
          exact List.mem_cons_self b pre'
        have hbm : b.2 < m.2 := hpre b hbpre
        have hpm : p.2 < m.2 := Nat.lt_of_le_of_lt (Nat.le_of_not_lt hlt) hbm
        refine ⟨b :: p :: pre', m, post, ?_, ?_, ?_, ?_⟩
        · rw [hxt.2]
          simp
        · simp [maxByFirst, hlt, hmax]
        · intro r hr
          rcases List.mem_cons.mp hr with rfl | hr2
          · exact Nat.le_of_lt hbm
          · rcases List.mem_cons.mp hr2 with rfl | hr3
            · exact Nat.le_of_lt hpm
            · exact hall r (List.mem_cons_of_mem b hr3)
        · intro r hr
          rcases List.mem_cons.mp hr with rfl | hr2
          · exact hbm
          · rcases List.mem_cons.mp hr2 with rfl | hr3
            · exact hpm
            · exact hpre r (by rw [← hxt.1] at *; exact List.mem_cons_of_mem b hr3)

theorem filter_decomp {α : Type} (p : α → Bool) : ∀ (S A : List α) (m : α) (B : List α),
    S.filter p = A ++ m :: B →
      ∃ pre post, S = pre ++ m :: post ∧ ∀ r ∈ pre, p r = false ∨ r ∈ A := by
  intro S
  induction S with
  | nil =>
    intro A m B h
    simp only [List.filter_nil] at h
    exact absurd h.symm (List.append_ne_nil_of_right_ne_nil A (List.cons_ne_nil m B))
  | cons s S' ih =>
    intro A m B h
    by_cases hp : p s
    · rw [List.filter_cons_of_pos hp] at h
      cases A with
      | nil =>
        simp only [List.nil_append, List.cons.injEq] at h
        exact ⟨[], S', by rw [List.nil_append, h.1], by simp⟩
      | cons a A' =>
        rw [List.cons_append, List.cons.injEq] at h
        obtain ⟨pre', post', hS', hpre'⟩ := ih A' m B h.2
        refine ⟨s :: pre', post', by rw [hS', List.cons_append], ?_⟩
        intro r hr
        rcases List.mem_cons.mp hr with rfl | hr2
        · exact Or.inr (h.1 ▸ List.mem_cons_self a A')
        · rcases hpre' r hr2 with h3 | h3
          · exact Or.inl h3
          · exact Or.inr (List.mem_cons_of_mem a h3)
    · rw [List.filter_cons_of_neg hp] at h
      obtain ⟨pre', post', hS', hpre'⟩ := ih A m B h
      refine ⟨s :: pre', post', by rw [hS', List.cons_append], ?_⟩
      intro r hr
      rcases List.mem_cons.mp hr with rfl | hr2
      · exact Or.inl (Bool.of_not_eq_true hp)
      · exact hpre' r hr2

theorem map_decomp {α β : Type} (f : α → β) : ∀ (L : List α) (A : List β) (m : β) (B : List β),
    L.map f = A ++ m :: B →
      ∃ preK mK postK, L = preK ++ mK :: postK ∧ f mK = m ∧ preK.map f = A := by
  intro L
  induction L with
  | nil =>
    intro A m B h
    simp only [List.map_nil] at h
    exact absurd h.symm (List.append_ne_nil_of_right_ne_nil A (List.cons_ne_nil m B))
  | cons x L' ih =>
    intro A m B h
    cases A with
    | nil =>
      simp only [List.map_cons, List.nil_append, List.cons.injEq] at h
      exact ⟨[], x, L', rfl, h.1, rfl⟩
    | cons a A' =>
      simp only [List.map_cons, List.cons_append, List.cons.injEq] at h
      obtain ⟨preK, mK, postK, hL, hf, hmap⟩ := ih A' m B h.2
      exact ⟨x :: preK, mK, postK, by rw [hL, List.cons_append],
        hf, by rw [List.map_cons, hmap, h.1]⟩

theorem detect_intent_eq (s : Str) :
    detect_intent s =
      match (intent_keywords.map
          (fun p => (p.1, p.2.countP (fun k => occursIn k (lower s))))).filter
            (fun p => 0 < p.2) with
      | [] => "general_assistance".data
      | b :: rest => (maxByFirst b rest).1 := rfl

/-- C4: intent detection counts, for each intent in the fixed order
create, analyze, explain, improve, convert, summarize, compare, plan, how
many of its trigger keywords occur as substrings of the lowered input; if
every count is zero it returns `general_assistance`; otherwise it returns
the first intent in that order attaining the maximal count (every earlier
intent scores strictly less, every intent scores no more). -/
theorem C4_intent_detection :
    intent_keywords.map Prod.fst =
      ["create".data, "analyze".data, "explain".data, "improve".data,
       "convert".data, "summarize".data, "compare".data, "plan".data] ∧
    (∀ s : Str,
      (∀ p ∈ intent_keywords, p.2.countP (fun k => occursIn k (lower s)) = 0) →
        detect_intent s = "general_assistance".data) ∧
    (∀ s : Str,
      (∃ p ∈ intent_keywords, 0 < p.2.countP (fun k => occursIn k (lower s))) →
      ∃ pre m post,
        intent_keywords = pre ++ m :: post ∧
        detect_intent s = m.1 ∧
        0 < m.2.countP (fun k => occursIn k (lower s)) ∧
        (∀ r ∈ intent_keywords,
          r.2.countP (fun k => occursIn k (lower s))
            ≤ m.2.countP (fun k => occursIn k (lower s))) ∧
        (∀ r ∈ pre,
          r.2.countP (fun k => occursIn k (lower s))
            < m.2.countP (fun k => occursIn k (lower s)))) := by
  refine ⟨rfl, ?_, ?_⟩
  · intro s hz
    rw [detect_intent_eq s]
    have hfil : (intent_keywords.map
        (fun p => (p.1, p.2.countP (fun k => occursIn k (lower s))))).filter
          (fun p => 0 < p.2) = [] := by
      rw [List.filter_eq_nil_iff]
      intro q hq
      obtain ⟨p, hp, rfl⟩ := List.mem_map.mp hq
      simp [hz p hp]
    rw [hfil]
  · intro s hex
    obtain ⟨p0, hp0, hpos0⟩ := hex
    rcases hF : (intent_keywords.map
        (fun p => (p.1, p.2.countP (fun k => occursIn k (lower s))))).filter
          (fun p => 0 < p.2) with _ | ⟨b, rest⟩
    · exfalso
      have hmem : (p0.1, p0.2.countP (fun k => occursIn k (lower s))) ∈
          (intent_keywords.map
            (fun p => (p.1, p.2.countP (fun k => occursIn k (lower s))))).filter
              (fun p => 0 < p.2) :=
        List.mem_filter.mpr ⟨List.mem_map.mpr ⟨p0, hp0, rfl⟩, by simpa using hpos0⟩
      rw [hF] at hmem
      simp at hmem
    · have hdi : detect_intent s = (maxByFirst b rest).1 := by
        have h := detect_intent_eq s
        rw [hF] at h
        exact h
      obtain ⟨preF, mF, postF, hdecF, hmaxF, hallF, hpreF⟩ := maxByFirst_spec rest b
      have hFdec : (intent_keywords.map
          (fun p => (p.1, p.2.countP (fun k => occursIn k (lower s))))).filter
            (fun p => 0 < p.2) = preF ++ mF :: postF := by
        rw [hF, hdecF]
      obtain ⟨preS, postS, hSdec, hpreS⟩ := filter_decomp _ _ _ _ _ hFdec
      obtain ⟨preK, mK, postK, hK, hfmK, hmapK⟩ := map_decomp _ _ _ _ _ hSdec
      have hmFpos : 0 < mF.2 := by
        have hmFmem : mF ∈ (intent_keywords.map
            (fun p => (p.1, p.2.countP (fun k => occursIn k (lower s))))).filter
              (fun p => 0 < p.2) := by
          rw [hFdec]
          exact List.mem_append_right _ (List.mem_cons_self mF postF)
        have := (List.mem_filter.mp hmFmem).2
        simpa using this
      have hmK2 : mK.2.countP (fun k => occursIn k (lower s)) = mF.2 := by
        rw [← hfmK]
      refine ⟨preK, mK, postK, hK, ?_, ?_, ?_, ?_⟩
      · rw [hdi, hmaxF, ← hfmK]
      · rw [hmK2]
        exact hmFpos
      · intro r hr
        rw [hmK2]
        by_cases hpr : 0 < r.2.countP (fun k => occursIn k (lower s))
        · have hmem : (r.1, r.2.countP (fun k => occursIn k (lower s))) ∈
              (intent_keywords.map
                (fun p => (p.1, p.2.countP (fun k => occursIn k (lower s))))).filter
                  (fun p => 0 < p.2) :=
            List.mem_filter.mpr ⟨List.mem_map.mpr ⟨r, hr, rfl⟩, by simpa using hpr⟩
          rw [hF] at hmem
          exact hallF _ hmem
        · exact Nat.le_trans (Nat.le_of_not_lt hpr) (Nat.zero_le _)
      · intro r hr
        rw [hmK2]
        have hmemS : (r.1, r.2.countP (fun k => occursIn k (lower s))) ∈ preS := by
          rw [← hmapK]
          exact List.mem_map.mpr ⟨r, hr, rfl⟩
        rcases hpreS _ hmemS with hcase | hcase
        · have hz : r.2.countP (fun k => occursIn k (lower s)) = 0 := by
            have := hcase
            simp only [decide_eq_false_iff_not, Nat.not_lt, Nat.le_zero] at this
            exact this
          rw [hz]
          exact hmFpos
        · exact hpreF _ hcase

/-- C4 witness: on "create a plan" both the create and plan intents score
one; the tie resolves to create, the first of the two in the enumeration
order. -/
theorem C4_intent_detection_witness :
    ∃ pre m post,
      intent_keywords = pre ++ m :: post ∧
      detect_intent "create a plan".data = m.1 ∧
      0 < m.2.countP (fun k => occursIn k (lower "create a plan".data)) ∧
      (∀ r ∈ intent_keywords,
        r.2.countP (fun k => occursIn k (lower "create a plan".data))
          ≤ m.2.countP (fun k => occursIn k (lower "create a plan".data))) ∧
      (∀ r ∈ pre,
        r.2.countP (fun k => occursIn k (lower "create a plan".data))
          < m.2.countP (fun k => occursIn k (lower "create a plan".data))) :=
  C4_intent_detection.2.2 "create a plan".data
    ⟨("create".data, ["create".data, "generate".data, "write".data, "make".data,
      "produce".data, "build".data, "design".data]),
      by decide, by decide⟩

/- ===================== C8 / C10: template filling ===================== -/

/-- Variable names free of both brace characters (true of every variable
in the catalog). -/
def braceFree (s : Str) : Bool := s.all (fun c => !(c == '\x7b') && !(c == '\x7d'))

theorem countOcc_append_head (a : Char) (pr : Str) : ∀ (u b : Str),
    (∀ c ∈ u, (a == c) = false) →
    countOcc (a :: pr) (u ++ b) = countOcc (a :: pr) b := by
  intro u
  induction u with
  | nil => intro b _; rfl
  | cons c t ih =>
    intro b hu
    have hc : (a == c) = false := hu c (List.mem_cons_self c t)
    have ht : ∀ x ∈ t, (a == x) = false := fun x hx => hu x (List.mem_cons_of_mem c hx)
    simp [countOcc, List.isPrefixOf, hc, ih b ht]

theorem countOcc_le_append_left (pat : Str) : ∀ (a b : Str),
    countOcc pat b ≤ countOcc pat (a ++ b) := by
  intro a b
  induction a with
  | nil => exact Nat.le_refl _
  | cons c t ih =>
    simp only [List.cons_append, countOcc]
    exact Nat.le_trans ih (Nat.le_add_left _ _)

theorem prefix_decomp (pat hay : Str) (h : pat.isPrefixOf hay = true) :
    hay = pat ++ hay.drop pat.length := by
  obtain ⟨u, hu⟩ := List.isPrefixOf_iff_prefix.mp h
  rw [← hu, List.drop_left]

theorem bracketMismatch : ∀ (w v h : Str), braceFree v = true → braceFree w = true →
    v ≠ w → (w ++ ['\x7d']).isPrefixOf (v ++ '\x7d' :: h) = false := by
  intro w
  induction w with
  | nil =>
    intro v h hv _ hne
    cases v with
    | nil => exact absurd rfl hne
    | cons a v' =>
      have ha : (a == '\x7d') = false := by
        have := List.all_eq_true.mp hv a (List.mem_cons_self a v')
        simp only [Bool.and_eq_true, Bool.not_eq_true'] at this
        exact this.2
      have ha2 : ('\x7d' == a) = false := by
        cases hb : ('\x7d' == a) with
        | false => rfl
        | true => rw [eq_of_beq hb] at ha; simp at ha
      simp [List.isPrefixOf, ha2]
  | cons b w' ih =>
    intro v h hv hw hne
    have hb : (b == '\x7d') = false := by
      have := List.all_eq_true.mp hw b (List.mem_cons_self b w')
      simp only [Bool.and_eq_true, Bool.not_eq_true'] at this
      exact this.2
    have hw' : braceFree w' = true := by
      simp only [braceFree, List.all_cons, Bool.and_eq_true] at hw
      exact hw.2
    cases v with
    | nil =>
      simp [List.isPrefixOf, hb]
    | cons a v' =>
      have hv' : braceFree v' = true := by
        simp only [braceFree, List.all_cons, Bool.and_eq_true] at hv
        exact hv.2
      by_cases hba : b = a
      · subst hba
        have hne' : v' ≠ w' := fun heq => hne (by rw [heq])
        simp [List.isPrefixOf, ih v' h hv' hw' hne']
      · simp [List.isPrefixOf, beq_eq_false_iff_ne.mpr hba]

theorem braceFree_no_open (v : Str) (hv : braceFree v = true) :
    ∀ c ∈ v, ('\x7b' == c) = false := by
  intro c hc
  have := List.all_eq_true.mp hv c hc
  simp only [Bool.and_eq_true, Bool.not_eq_true'] at this
  cases hb : ('\x7b' == c) with
  | false => rfl
  | true => rw [← eq_of_beq hb] at this; simp at this

theorem count_ph_no_overlap (v w : Str) (hv : braceFree v = true) (hw : braceFree w = true)
    (hne : v ≠ w) : ∀ h : Str, countOcc (ph w) (ph v ++ h) = countOcc (ph w) h := by
  intro h
  have e2 : ph v ++ h = '\x7b' :: (v ++ '\x7d' :: h) := by simp [ph]
  rw [e2]
  have hpre : (ph w).isPrefixOf ('\x7b' :: (v ++ '\x7d' :: h)) = false := by
    show List.isPrefixOf ('\x7b' :: (w ++ ['\x7d'])) ('\x7b' :: (v ++ '\x7d' :: h)) = false
    simp only [List.isPrefixOf, beq_self_eq_true, Bool.true_and]
    exact bracketMismatch w v h hv hw hne
  simp only [countOcc, hpre, Bool.false_eq_true, if_false, Nat.zero_add]
  have hskip : countOcc (ph w) (v ++ '\x7d' :: h) = countOcc (ph w) ('\x7d' :: h) := by
    rw [show ph w = '\x7b' :: (w ++ ['\x7d']) from rfl]
    exact countOcc_append_head '\x7b' (w ++ ['\x7d']) v ('\x7d' :: h) (braceFree_no_open v hv)
  rw [hskip]
  exact countOcc_cons_ne (ph w) '\x7b' '\x7d' (w ++ ['\x7d']) h rfl (by decide)

theorem count_ph_self (w : Str) (hw : braceFree w = true) :
    ∀ h : Str, countOcc (ph w) (ph w ++ h) = 1 + countOcc (ph w) h := by
  intro h
  have e2 : ph w ++ h = '\x7b' :: (w ++ '\x7d' :: h) := by simp [ph]
  rw [e2]
  have hpre : (ph w).isPrefixOf ('\x7b' :: (w ++ '\x7d' :: h)) = true := by
    show List.isPrefixOf ('\x7b' :: (w ++ ['\x7d'])) ('\x7b' :: (w ++ '\x7d' :: h)) = true
    have h1 : (w ++ ['\x7d']).isPrefixOf ((w ++ ['\x7d']) ++ h) = true :=
      isPrefixOf_append_of_isPrefixOf (w ++ ['\x7d']) (w ++ ['\x7d']) h
        (List.isPrefixOf_iff_prefix.mpr (List.prefix_refl (w ++ ['\x7d'])))
    have e3 : (w ++ ['\x7d']) ++ h = w ++ '\x7d' :: h := by simp
    rw [e3] at h1
    simp only [List.isPrefixOf, beq_self_eq_true, Bool.true_and]
    exact h1
  simp only [countOcc, hpre, if_true]
  have hskip : countOcc (ph w) (w ++ '\x7d' :: h) = countOcc (ph w) ('\x7d' :: h) := by
    rw [show ph w = '\x7b' :: (w ++ ['\x7d']) from rfl]
    exact countOcc_append_head '\x7b' (w ++ ['\x7d']) w ('\x7d' :: h) (braceFree_no_open w hw)
  rw [hskip, countOcc_cons_ne (ph w) '\x7b' '\x7d' (w ++ ['\x7d']) h rfl (by decide)]

theorem braceFree_no_open_ext (w : Str) (hw : braceFree w = true) :
    ∀ c ∈ w ++ ['\x7d'], ('\x7b' == c) = false := by
  intro c hc
  rcases List.mem_append.mp hc with h1 | h2
  · exact braceFree_no_open w hw c h1
  · rcases List.mem_singleton.mp h2 with rfl
    decide

theorem replaceAllGo_copy (val v : Str) : ∀ (u rest : Str) (fuel : Nat),
    (∀ c ∈ u, ('\x7b' == c) = false) → u.length + rest.length ≤ fuel →
    replaceAllGo (ph v) val fuel (u ++ rest)
      = u ++ replaceAllGo (ph v) val (fuel - u.length) rest := by
  intro u
  induction u with
  | nil => intro rest fuel _ _; simp
  | cons x u' ih =>
    intro rest fuel hu hlen
    cases fuel with
    | zero => simp at hlen
    | succ f =>
      have hx : ('\x7b' == x) = false := hu x (List.mem_cons_self x u')
      have hpre : (ph v).isPrefixOf (x :: (u' ++ rest)) = false := by
        show List.isPrefixOf ('\x7b' :: (v ++ ['\x7d'])) (x :: (u' ++ rest)) = false
        simp [List.isPrefixOf, hx]
      have hu' : ∀ c ∈ u', ('\x7b' == c) = false :=
        fun c hc => hu c (List.mem_cons_of_mem x hc)
      have hlen' : u'.length + rest.length ≤ f := by
        simp only [List.length_cons] at hlen
        omega
      have hstep : replaceAllGo (ph v) val (f + 1) (x :: (u' ++ rest))
          = x :: replaceAllGo (ph v) val f (u' ++ rest) := by
        have hcond : (!(ph v).isEmpty && (ph v).isPrefixOf (x :: (u' ++ rest))) = false := by
          rw [hpre]
          simp
        simp only [replaceAllGo, hcond, Bool.false_eq_true, if_false]
      rw [List.cons_append, hstep, ih rest f hu' hlen']
      simp only [List.length_cons, Nat.succ_sub_succ, List.cons_append]

theorem replaceAllGo_count_le (v w val : Str) (hv : braceFree v = true)
    (hw : braceFree w = true) (hne : v ≠ w) :
    ∀ fuel (hay : Str), hay.length ≤ fuel →
      countOcc (ph w) hay ≤ countOcc (ph w) (replaceAllGo (ph v) val fuel hay) := by
  intro fuel
  induction fuel using Nat.strong_induction_on with
  | _ fuel ih =>
    intro hay hlen
    cases hay with
    | nil => cases fuel <;> simp [replaceAllGo]
    | cons c t =>
      cases fuel with
      | zero => simp at hlen
      | succ f =>
        have hlent : t.length + 1 ≤ f + 1 := by
          simpa using hlen
        by_cases hmatch : ((ph v).isPrefixOf (c :: t)) = true
        · have heq : replaceAllGo (ph v) val (f + 1) (c :: t) =
              val ++ replaceAllGo (ph v) val f ((c :: t).drop (ph v).length) := by
            have hcond : (!(ph v).isEmpty && (ph v).isPrefixOf (c :: t)) = true := by
              rw [hmatch]
              simp [ph, List.isEmpty]
            simp only [replaceAllGo, hcond, if_true]
          rcases List.isPrefixOf_iff_prefix.mp hmatch with ⟨u, hu⟩
          have hdrop : (c :: t).drop (ph v).length = u := by
            rw [← hu, List.drop_left]
          rw [heq, hdrop]
          have hL : countOcc (ph w) (c :: t) = countOcc (ph w) u := by
            rw [← hu]
            exact count_ph_no_overlap v w hv hw hne u
          rw [hL]
          have hulen : u.length ≤ f := by
            have h1 : (ph v).length + u.length = (c :: t).length := by
              rw [← hu, List.length_append]
            have h2 : 2 ≤ (ph v).length := by
              simp [ph]
            have h3 : (c :: t).length = t.length + 1 := by simp
            omega
          exact Nat.le_trans (ih f (Nat.lt_succ_self f) u hulen)
            (countOcc_le_append_left (ph w) val _)
        · have heq : replaceAllGo (ph v) val (f + 1) (c :: t) =
              c :: replaceAllGo (ph v) val f t := by
            have hcond : (!(ph v).isEmpty && (ph v).isPrefixOf (c :: t)) = false := by
              rw [Bool.eq_false_iff.mpr hmatch]
              simp
            simp only [replaceAllGo, hcond, Bool.false_eq_true, if_false]
          by_cases hwpre : ((ph w).isPrefixOf (c :: t)) = true
          · rcases List.isPrefixOf_iff_prefix.mp hwpre with ⟨u, hu⟩
            have hct : '\x7b' = c ∧ (w ++ ['\x7d']) ++ u = t := by
              have h2 := hu
              rw [show ph w = '\x7b' :: (w ++ ['\x7d']) from rfl, List.cons_append,
                List.cons.injEq] at h2
              exact h2
            obtain ⟨hc1, hc2⟩ := hct
            subst hc1
            subst hc2
            rw [heq]
            have hwlen : (w ++ ['\x7d']).length + u.length ≤ f := by
              simp only [List.length_cons, List.length_append] at hlen ⊢
              omega
            rw [replaceAllGo_copy val v (w ++ ['\x7d']) u f
              (braceFree_no_open_ext w hw) hwlen]
            have eL : ('\x7b' :: ((w ++ ['\x7d']) ++ u) : Str) = ph w ++ u := by
              simp [ph]
            have eR : ('\x7b' :: ((w ++ ['\x7d']) ++
                replaceAllGo (ph v) val (f - (w ++ ['\x7d']).length) u) : Str)
                = ph w ++ replaceAllGo (ph v) val (f - (w ++ ['\x7d']).length) u := by
              simp [ph]
            rw [eL, eR, count_ph_self w hw, count_ph_self w hw]
            have hulen2 : u.length ≤ f - (w ++ ['\x7d']).length := by
              simp only [List.length_append, List.length_singleton] at hwlen ⊢
              omega
            have hfuel2 : f - (w ++ ['\x7d']).length < f + 1 := by
              omega
            exact Nat.add_le_add_left (ih _ hfuel2 u hulen2) 1
          · rw [heq]
            have hIH := ih f (Nat.lt_succ_self f) t (by omega)
            simp only [countOcc, hwpre, Bool.false_eq_true, if_false, Nat.zero_add]
            cases hq : (ph w).isPrefixOf (c :: replaceAllGo (ph v) val f t) with
            | false => simpa using hIH
            | true =>
              simp only [if_true]
              omega

theorem replaceAll_count_le (v w val hay : Str) (hv : braceFree v = true)
    (hw : braceFree w = true) (hne : v ≠ w) :
    countOcc (ph w) hay ≤ countOcc (ph w) (replaceAll (ph v) val hay) :=
  replaceAllGo_count_le v w val hv hw hne hay.length hay (Nat.le_refl _)

theorem fill_fold_count_le (w : Str) (hw : braceFree w = true) :
    ∀ (vs : List (Str × Str)) (acc : Str),
      (∀ p ∈ vs, braceFree p.1 = true ∧ p.1 ≠ w) →
      countOcc (ph w) acc ≤
        countOcc (ph w) (vs.foldl (fun acc p => replaceAll (ph p.1) p.2 acc) acc) := by
  intro vs
  induction vs with
  | nil => intro acc _; exact Nat.le_refl _
  | cons p vs' ih =>
    intro acc hvs
    have hp := hvs p (List.mem_cons_self p vs')
    have hstep : countOcc (ph w) acc ≤ countOcc (ph w) (replaceAll (ph p.1) p.2 acc) :=
      replaceAll_count_le p.1 w p.2 acc hp.1 hw hp.2
    have hrest : ∀ q ∈ vs', braceFree q.1 = true ∧ q.1 ≠ w :=
      fun q hq => hvs q (List.mem_cons_of_mem p hq)
    exact Nat.le_trans hstep (ih (replaceAll (ph p.1) p.2 acc) hrest)

/-- C8: filling a template by name signals an error exactly when the name
is absent from the catalog; for a present template with no supplied values
it returns the template text unchanged (every placeholder verbatim); and
more generally any placeholder `\x7b w \x7d` whose variable `w` is not among
the supplied ones survives the fill (its occurrence count never drops). -/
theorem C8_fill_template_lookup :
    (∀ (n : Str) (vs : List (Str × Str)),
      (∃ e, fill_template n vs = Except.error e) ↔ get_template n = none) ∧
    (∀ (n : Str) (t : PromptTemplate), get_template n = some t →
      fill_template n [] = Except.ok t.template) ∧
    (∀ (n : Str) (t : PromptTemplate) (vs : List (Str × Str)) (w r : Str),
      get_template n = some t →
      fill_template n vs = Except.ok r →
      braceFree w = true →
      (∀ p ∈ vs, braceFree p.1 = true ∧ p.1 ≠ w) →
      countOcc (ph w) t.template ≤ countOcc (ph w) r) := by
  refine ⟨?_, ?_, ?_⟩
  · intro n vs
    constructor
    · rintro ⟨e, he⟩
      cases hg : get_template n with
      | none => rfl
      | some t =>
        rw [show fill_template n vs =
            Except.ok (vs.foldl (fun acc p => replaceAll (ph p.1) p.2 acc) t.template)
          from by simp [fill_template, hg]] at he
        exact absurd he (by simp)
    · intro hg
      refine ⟨"Template \x27".data ++ n ++ "\x27 not found".data, ?_⟩
      simp [fill_template, hg]
  · intro n t hg
    simp [fill_template, hg]
  · intro n t vs w r hg hr hw hvs
    rw [show fill_template n vs =
        Except.ok (vs.foldl (fun acc p => replaceAll (ph p.1) p.2 acc) t.template)
      from by simp [fill_template, hg]] at hr
    have hr2 : vs.foldl (fun acc p => replaceAll (ph p.1) p.2 acc) t.template = r := by
      simpa using hr
    rw [← hr2]
    exact fill_fold_count_le w hw vs t.template hvs

/-- C8 witness: the blog_post template fills to its own text with no
supplied values, and the `\x7btopic\x7d` placeholder survives a fill that
supplies only `audience`. -/
theorem C8_fill_template_lookup_witness :
    fill_template "blog_post".data [] = Except.ok blog_post_template.template ∧
    countOcc (ph "topic".data) blog_post_template.template ≤
      countOcc (ph "topic".data)
        (replaceAll (ph "audience".data) "healthcare professionals".data
          blog_post_template.template) :=
  ⟨C8_fill_template_lookup.2.1 "blog_post".data blog_post_template rfl,
   C8_fill_template_lookup.2.2 "blog_post".data blog_post_template
     [("audience".data, "healthcare professionals".data)] "topic".data
     (replaceAll (ph "audience".data) "healthcare professionals".data
       blog_post_template.template)
     rfl rfl (by decide) (by decide)⟩

/- ===================== C10: sequential vs simultaneous ===================== -/

def simultaneousGo (vals : List (Str × Str)) : Nat → Str → Str
  | _, [] => []
  | 0, hay => hay
  | fuel + 1, c :: t =>
    match vals.find? (fun p => (ph p.1).isPrefixOf (c :: t)) with
    | some p => p.2 ++ simultaneousGo vals fuel ((c :: t).drop (ph p.1).length)
    | none => c :: simultaneousGo vals fuel t

/-- Modelled from the claim\x27s words, as the comparison point for the
refinement claim C10: simultaneous substitution replaces, in one
left-to-right pass over the original template text, each placeholder
occurrence of a supplied variable by that variable\x27s value; substituted
values are emitted verbatim and never rescanned.  (Fuel as in
`replaceAll`.) -/
def simultaneousFill (vals : List (Str × Str)) (hay : Str) : Str :=
  simultaneousGo vals hay.length hay

/-- C10: `fill_template` substitutes sequentially, one supplied variable
at a time in map order, so a placeholder injected by an earlier value is
replaced by a later variable\x27s pass: filling blog_post with
topic = "AI \x7baudience\x7d trends", audience = "doctors" yields text
containing "AI doctors trends", whereas simultaneous substitution leaves
the injected "\x7baudience\x7d" verbatim, and the two results differ. -/
theorem C10_sequential_substitution :
    fill_template "blog_post".data
        [("topic".data, "AI {audience} trends".data), ("audience".data, "doctors".data)] =
      Except.ok (replaceAll (ph "audience".data) "doctors".data
        (replaceAll (ph "topic".data) "AI {audience} trends".data
          blog_post_template.template)) ∧
    occursIn "blog post about AI doctors trends for doctors.".data
      (replaceAll (ph "audience".data) "doctors".data
        (replaceAll (ph "topic".data) "AI {audience} trends".data
          blog_post_template.template)) = true ∧
    occursIn "AI doctors trends".data
      (simultaneousFill
        [("topic".data, "AI {audience} trends".data), ("audience".data, "doctors".data)]
        blog_post_template.template) = false ∧
    occursIn "AI {audience} trends".data
      (simultaneousFill
        [("topic".data, "AI {audience} trends".data), ("audience".data, "doctors".data)]
        blog_post_template.template) = true ∧
    replaceAll (ph "audience".data) "doctors".data
        (replaceAll (ph "topic".data) "AI {audience} trends".data
          blog_post_template.template) ≠
      simultaneousFill
        [("topic".data, "AI {audience} trends".data), ("audience".data, "doctors".data)]
        blog_post_template.template := by
  refine ⟨rfl, by decide, by decide, by decide, by decide⟩

/- ===================== C7: hash-freedom of generated chunks ===================== -/

theorem noHashB_cons (c : Char) (s : Str) (hc : (c == '#') = false)
    (hs : noHashB s = true) : noHashB (c :: s) = true := by
  simp only [noHashB, List.all_cons, Bool.and_eq_true]
  exact ⟨by simp [hc], hs⟩

theorem isAZ_no_hash (c : Char) (h : isAZ c = true) : (c == '#') = false := by
  cases hb : (c == '#') with
  | false => rfl
  | true =>
    rw [eq_of_beq hb] at h
    simp [isAZ] at h

theorem isAsciiDigit_no_hash (c : Char) (h : isAsciiDigit c = true) : (c == '#') = false := by
  cases hb : (c == '#') with
  | false => rfl
  | true =>
    rw [eq_of_beq hb] at h
    simp [isAsciiDigit] at h

theorem noHashB_of_allAZ (w : Str) (h : w.all isAZ = true) : noHashB w = true := by
  simp only [noHashB, List.all_eq_true]
  intro c hc
  simp [isAZ_no_hash c (List.all_eq_true.mp h c hc)]

theorem extract_keywords_allAZ (s : Str) :
    ∀ w ∈ extract_keywords s, w.all isAZ = true := by
  intro w hw
  simp only [extract_keywords] at hw
  have hw1 : w ∈ dedupFirst []
      ((findWords (lower s)).filter (fun w => !stop_words.contains w && 3 < w.length)) :=
    List.take_subset 10 _ hw
  have hw2 : w ∈ (findWords (lower s)).filter
      (fun w => !stop_words.contains w && 3 < w.length) :=
    (dedupFirst_sublist _ []).subset hw1
  have hw3 : w ∈ findWords (lower s) := (List.mem_filter.mp hw2).1
  exact (List.mem_filter.mp hw3).2

theorem extract_keywords_noHash (s : Str) :
    ∀ w ∈ extract_keywords s, noHashB w = true :=
  fun w hw => noHashB_of_allAZ w (extract_keywords_allAZ s w hw)

theorem noHashB_joinSep (sep : Str) (hsep : noHashB sep = true) :
    ∀ xs : List Str, (∀ x ∈ xs, noHashB x = true) → noHashB (joinSep sep xs) = true := by
  intro xs
  induction xs with
  | nil => intro _; rfl
  | cons x xs ih =>
    intro hxs
    cases xs with
    | nil => exact hxs x (List.mem_singleton.mpr rfl)
    | cons y ys =>
      have hx := hxs x (List.mem_cons_self x (y :: ys))
      have hrest := ih (fun z hz => hxs z (List.mem_cons_of_mem x hz))
      simp only [joinSep]
      exact noHashB_append _ _ (noHashB_append _ _ hx hsep) hrest

theorem noHashB_lookupD (table : List (Str × Str)) (key dflt : Str)
    (htab : ∀ p ∈ table, noHashB p.2 = true) (hd : noHashB dflt = true) :
    noHashB (lookupD table key dflt) = true := by
  simp only [lookupD]
  cases hf : table.find? (fun p => decide (p.1 = key)) with
  | none => exact hd
  | some p => exact htab p (List.mem_of_find?_eq_some hf)

theorem noHashB_bulleted : ∀ l : List Str, (∀ x ∈ l, noHashB x = true) →
    noHashB (bulleted l) = true := by
  intro l
  induction l with
  | nil => intro _; rfl
  | cons x xs ih =>
    intro hl
    simp only [bulleted]
    exact noHashB_append _ _
      (noHashB_append _ _
        (noHashB_append _ _ (by decide) (hl x (List.mem_cons_self x xs)))
        (by decide))
      (ih (fun z hz => hl z (List.mem_cons_of_mem x hz)))

theorem pyUpperChar_no_hash (c : Char) (h : (c == '#') = false) :
    (pyUpperChar c == '#') = false := by
  unfold pyUpperChar
  split <;> first | decide | exact h

theorem pyLowerChar_no_hash (c : Char) (h : (c == '#') = false) :
    (pyLowerChar c == '#') = false := by
  unfold pyLowerChar
  split <;> first | decide | exact h

theorem noHashB_pyTitleGo : ∀ (s : Str) (b : Bool), noHashB s = true →
    noHashB (pyTitleGo b s) = true := by
  intro s
  induction s with
  | nil => intro b _; rfl
  | cons c t ih =>
    intro b hs
    simp only [noHashB, List.all_cons, Bool.and_eq_true, Bool.not_eq_true'] at hs
    have hc : (c == '#') = false := hs.1
    have ht : noHashB t = true := hs.2
    simp only [pyTitleGo]
    apply noHashB_cons
    · by_cases ha : isAsciiAlpha c = true
      · simp only [ha, if_true]
        by_cases hb : b = true
        · simp only [hb, if_true]
          exact pyLowerChar_no_hash c hc
        · simp only [Bool.not_eq_true] at hb
          simp only [hb, Bool.false_eq_true, if_false]
          exact pyUpperChar_no_hash c hc
      · simp only [Bool.not_eq_true] at ha
        simp only [ha, Bool.false_eq_true, if_false]
        exact hc
    · exact ih _ ht

theorem noHashB_pyTitle (s : Str) (h : noHashB s = true) : noHashB (pyTitle s) = true :=
  noHashB_pyTitleGo s false h

theorem noHashB_replUnderscore (s : Str) (h : noHashB s = true) :
    noHashB (replUnderscore s) = true := by
  simp only [noHashB, replUnderscore, List.all_map, List.all_eq_true] at h ⊢
  intro c hc
  have := h c hc
  by_cases hu : c = '_'
  · subst hu
    decide
  · simp only [Function.comp, if_neg hu]
    simpa using this

theorem detect_output_format_noHash (s : Str) : noHashB (detect_output_format s) = true := by
  simp only [detect_output_format]
  cases hf : formats.find? (fun p => p.2.any (fun k => occursIn k (lower s))) with
  | none => decide
  | some p =>
    have hp := List.mem_of_find?_eq_some hf
    have htab : ∀ q ∈ formats, noHashB q.1 = true := by decide
    exact htab p hp

theorem detect_audience_noHash (s : Str) : noHashB (detect_audience s) = true := by
  simp only [detect_audience]
  cases hf : audiences.find? (fun p => p.2.any (fun k => occursIn k (lower s))) with
  | none => decide
  | some p =>
    have hp := List.mem_of_find?_eq_some hf
    have htab : ∀ q ∈ audiences, noHashB q.1 = true := by decide
    exact htab p hp

theorem detect_tone_noHash (s : Str) : noHashB (detect_tone s) = true := by
  simp only [detect_tone]
  cases hf : tone_indicators.find? (fun p => p.2.any (fun k => occursIn k (lower s))) with
  | none => decide
  | some p =>
    have hp := List.mem_of_find?_eq_some hf
    have htab : ∀ q ∈ tone_indicators, noHashB q.1 = true := by decide
    exact htab p hp

theorem generate_role_definition_noHash (ctx : PromptContext)
    (hkw : ∀ w ∈ ctx.keywords, noHashB w = true) :
    noHashB (generate_role_definition ctx) = true := by
  simp only [generate_role_definition]
  apply noHashB_append _ _ _ (by decide)
  have hbase0 : noHashB
      (match role_templates.find? (fun p => decide (p.1 = ctx.category)) with
        | some p => p.2
        | none => "You are a knowledgeable AI assistant".data) = true := by
    cases hf : role_templates.find? (fun p => decide (p.1 = ctx.category)) with
    | none => decide
    | some p =>
      have hp := List.mem_of_find?_eq_some hf
      have htab : ∀ q ∈ role_templates, noHashB q.2 = true := by decide
      exact htab p hp
  have hbase1 : noHashB
      (if ctx.keywords.isEmpty then
        (match role_templates.find? (fun p => decide (p.1 = ctx.category)) with
          | some p => p.2
          | none => "You are a knowledgeable AI assistant".data)
      else
        (match role_templates.find? (fun p => decide (p.1 = ctx.category)) with
          | some p => p.2
          | none => "You are a knowledgeable AI assistant".data)
          ++ " specializing in ".data ++ joinSep ", ".data (ctx.keywords.take 3)) = true := by
    by_cases hk : ctx.keywords.isEmpty
    · simp only [hk, if_true]
      exact hbase0
    · simp only [Bool.not_eq_true] at hk
      simp only [hk, Bool.false_eq_true, if_false]
      refine noHashB_append _ _ (noHashB_append _ _ hbase0 (by decide)) ?_
      exact noHashB_joinSep ", ".data (by decide) _
        (fun w hw => hkw w (List.take_subset 3 _ hw))
  cases hft : tone_modifiers.find? (fun p => decide (p.1 = ctx.tone)) with
  | none => exact hbase1
  | some p =>
    have hp := List.mem_of_find?_eq_some hft
    have htab : ∀ q ∈ tone_modifiers, noHashB q.2 = true := by decide
    exact noHashB_append _ _ (noHashB_append _ _ hbase1 (by decide)) (htab p hp)

theorem generate_instructions_noHash (ctx : PromptContext)
    (hkw : ∀ w ∈ ctx.keywords, noHashB w = true)
    (hfmt : noHashB ctx.output_format = true) :
    ∀ x ∈ generate_instructions ctx, noHashB x = true := by
  intro x hx
  simp only [generate_instructions] at hx
  have hi1 : noHashB (lookupD (intent_instructions ctx.output_format) ctx.intent
      "Address the user\x27s request comprehensively".data) = true := by
    apply noHashB_lookupD
    · intro p hp
      fin_cases hp
      · exact noHashB_append _ _ (noHashB_append _ _ (by decide) hfmt) (by decide)
      all_goals decide
    · decide
  have hi2 : noHashB (lookupD audience_instructions ctx.target_audience
      "Tailor content to the audience".data) = true := by
    apply noHashB_lookupD
    · intro p hp
      fin_cases hp <;> decide
    · decide
  have hi3 : noHashB
      (if ctx.complexity_level = "basic".data then
        "Break down complex ideas into simple, digestible components".data
      else if ctx.complexity_level = "advanced".data then
        "Explore nuanced aspects and advanced implications".data
      else "Balance depth with accessibility".data) = true := by
    split
    · decide
    · split <;> decide
  have hi4 : noHashB (lookupD format_instructions ctx.output_format
      "Format output appropriately".data) = true := by
    apply noHashB_lookupD
    · intro p hp
      fin_cases hp <;> decide
    · decide
  rcases List.mem_append.mp hx with h4 | h5
  · simp only [List.mem_cons, List.mem_singleton] at h4
    rcases h4 with rfl | rfl | rfl | rfl | h0
    · exact hi1
    · exact hi2
    · exact hi3
    · exact hi4
    · simp at h0
  · by_cases hk : ctx.keywords.isEmpty
    · simp only [hk, if_true] at h5
      simp at h5
    · simp only [Bool.not_eq_true] at hk
      simp only [hk, Bool.false_eq_true, if_false, List.mem_singleton] at h5
      subst h5
      refine noHashB_append _ _ (by decide) ?_
      exact noHashB_joinSep ", ".data (by decide) _
        (fun w hw => hkw w (List.take_subset 5 _ hw))

theorem noHashB_numberedFrom_cons (i : Nat) (x : Str) (xs : List Str)
    (hnat : noHashB (natStr i) = true) (hx : noHashB x = true)
    (hrest : noHashB (numberedFrom (i + 1) xs) = true) :
    noHashB (numberedFrom i (x :: xs)) = true := by
  simp only [numberedFrom]
  exact noHashB_append _ _
    (noHashB_append _ _
      (noHashB_append _ _ (noHashB_append _ _ hnat (by decide)) hx)
      (by decide))
    hrest

theorem numbered_instructions_noHash (ctx : PromptContext)
    (hels : ∀ x ∈ generate_instructions ctx, noHashB x = true) :
    noHashB (numberedFrom 1 (generate_instructions ctx)) = true := by
  rcases hshape : generate_instructions ctx with _ | ⟨a, _ | ⟨b, _ | ⟨c, _ | ⟨d, rest⟩⟩⟩⟩
  · rfl
  · exact noHashB_numberedFrom_cons 1 a [] (by decide)
      (hels a (by rw [hshape]; exact List.mem_cons_self a [])) rfl
  · refine noHashB_numberedFrom_cons 1 a _ (by decide)
      (hels a (by rw [hshape]; simp)) ?_
    exact noHashB_numberedFrom_cons 2 b [] (by decide)
      (hels b (by rw [hshape]; simp)) rfl
  · refine noHashB_numberedFrom_cons 1 a _ (by decide)
      (hels a (by rw [hshape]; simp)) ?_
    refine noHashB_numberedFrom_cons 2 b _ (by decide)
      (hels b (by rw [hshape]; simp)) ?_
    exact noHashB_numberedFrom_cons 3 c [] (by decide)
      (hels c (by rw [hshape]; simp)) rfl
  · rcases rest with _ | ⟨e, _ | ⟨f, rest2⟩⟩
    · refine noHashB_numberedFrom_cons 1 a _ (by decide)
        (hels a (by rw [hshape]; simp)) ?_
      refine noHashB_numberedFrom_cons 2 b _ (by decide)
        (hels b (by rw [hshape]; simp)) ?_
      refine noHashB_numberedFrom_cons 3 c _ (by decide)
        (hels c (by rw [hshape]; simp)) ?_
      exact noHashB_numberedFrom_cons 4 d [] (by decide)
        (hels d (by rw [hshape]; simp)) rfl
    · refine noHashB_numberedFrom_cons 1 a _ (by decide)
        (hels a (by rw [hshape]; simp)) ?_
      refine noHashB_numberedFrom_cons 2 b _ (by decide)
        (hels b (by rw [hshape]; simp)) ?_
      refine noHashB_numberedFrom_cons 3 c _ (by decide)
        (hels c (by rw [hshape]; simp)) ?_
      refine noHashB_numberedFrom_cons 4 d _ (by decide)
        (hels d (by rw [hshape]; simp)) ?_
      exact noHashB_numberedFrom_cons 5 e [] (by decide)
        (hels e (by rw [hshape]; simp)) rfl
    · exfalso
      have hlen : (generate_instructions ctx).length ≤ 5 := by
        by_cases hk : ctx.keywords.isEmpty
        · simp [generate_instructions, hk]
        · simp [generate_instructions, hk]
      rw [hshape] at hlen
      simp only [List.length_cons] at hlen
      omega

theorem findWordCount_digits : ∀ (l : Str) (ds : Str), findWordCount l = some ds →
    ∀ c ∈ ds, isAsciiDigit c = true := by
  intro l
  induction l with
  | nil => intro ds h; simp [findWordCount] at h
  | cons c t ih =>
    intro ds h
    by_cases hd : isAsciiDigit c = true
    · simp only [findWordCount, hd, if_true] at h
      by_cases hw : "word".data.isPrefixOf
          (((c :: t).dropWhile isAsciiDigit).dropWhile pyIsSpace) = true
      · simp only [hw, if_true, Option.some.injEq] at h
        subst h
        exact fun x hx => List.mem_takeWhile_imp hx
      · simp only [Bool.not_eq_true] at hw
        simp only [hw, Bool.false_eq_true, if_false] at h
        exact ih ds h
    · simp only [Bool.not_eq_true] at hd
      simp only [findWordCount, hd, Bool.false_eq_true, if_false] at h
      exact ih ds h

theorem extract_constraints_noHash (s : Str) :
    ∀ x ∈ extract_constraints s, noHashB x = true := by
  intro x hx
  simp only [extract_constraints] at hx
  rcases List.mem_append.mp hx with hx4 | hx5
  rcases List.mem_append.mp hx4 with hx3 | hx4
  rcases List.mem_append.mp hx3 with hx2 | hx3
  rcases List.mem_append.mp hx2 with hx1 | hx2
  · split at hx1
    · simp only [List.mem_singleton] at hx1
      subst hx1
      decide
    · split at hx1
      · simp only [List.mem_singleton] at hx1
        subst hx1
        decide
      · simp at hx1
  · rcases hfw : findWordCount (lower s) with _ | ds
    · rw [hfw] at hx2
      simp at hx2
    · rw [hfw] at hx2
      simp only [List.mem_singleton] at hx2
      subst hx2
      have hds : noHashB ds = true := by
        simp only [noHashB, List.all_eq_true]
        intro c hc
        simpa using isAsciiDigit_no_hash c (findWordCount_digits (lower s) ds hfw c hc)
      exact noHashB_append _ _ (noHashB_append _ _ (by decide) hds) (by decide)
  · split at hx3
    · simp only [List.mem_singleton] at hx3
      subst hx3
      decide
    · simp at hx3
  · split at hx4
    · simp only [List.mem_singleton] at hx4
      subst hx4
      decide
    · simp at hx4
  · split at hx5
    · simp only [List.mem_singleton] at hx5
      subst hx5
      decide
    · simp at hx5

theorem generate_constraints_noHash (target : TargetLLM) (ctx : PromptContext)
    (hctx : ∀ x ∈ ctx.constraints, noHashB x = true) :
    ∀ x ∈ generate_constraints target ctx, noHashB x = true := by
  intro x hx
  simp only [generate_constraints] at hx
  rcases List.mem_append.mp hx with hx3 | hx4
  rcases List.mem_append.mp hx3 with hx2 | hx3
  rcases List.mem_append.mp hx2 with hx1 | hx2
  · exact hctx x hx1
  · have htl : ∀ y ∈ (match target with
        | TargetLLM.CLAUDE_35_SONNET =>
          [ "Prioritize long-form reasoning and detailed explanations".data,
            "Follow instructions precisely and maintain structural consistency".data,
            "Minimize hallucinations by grounding responses in provided context".data ]
        | TargetLLM.GPT_4_TURBO =>
          [ "Balance creativity with accuracy".data,
            "Maintain coherent narrative flow".data ]
        | TargetLLM.GPT_4O =>
          [ "Balance creativity with accuracy".data,
            "Maintain coherent narrative flow".data ]
        | _ => ([] : List Str)), noHashB y = true := by
      cases target <;> decide
    exact htl x hx2
  · fin_cases hx3 <;> decide
  · rcases hft : tone_constraints.find? (fun p => decide (p.1 = ctx.tone)) with _ | p
    · rw [hft] at hx4
      simp at hx4
    · rw [hft] at hx4
      simp only [List.mem_singleton] at hx4
      subst hx4
      have htab : ∀ q ∈ tone_constraints, noHashB q.2 = true := by decide
      exact htab p (List.mem_of_find?_eq_some hft)

theorem generate_quality_criteria_noHash (ctx : PromptContext) :
    ∀ x ∈ generate_quality_criteria ctx, noHashB x = true := by
  intro x hx
  simp only [generate_quality_criteria] at hx
  rcases List.mem_append.mp hx with hx2 | hx3
  rcases List.mem_append.mp hx2 with hx1 | hx2
  · fin_cases hx1 <;> decide
  · rcases hfc : category_criteria.find? (fun p => decide (p.1 = ctx.category)) with _ | p
    · rw [hfc] at hx2
      simp at hx2
    · rw [hfc] at hx2
      simp only [List.mem_singleton] at hx2
      subst hx2
      have htab : ∀ q ∈ category_criteria, noHashB q.2 = true := by decide
      exact htab p (List.mem_of_find?_eq_some hfc)
  · split at hx3
    · simp only [List.mem_singleton] at hx3
      subst hx3
      decide
    · split at hx3
      · simp only [List.mem_singleton] at hx3
        subst hx3
        decide
      · simp at hx3

theorem countOcc_hash_lit2 (pr lt rest : Str) (hlt : noHashB lt = true)
    (hd : divergesEarly ('#' :: pr) ('#' :: lt) = true ∨
      ('#' :: pr).isPrefixOf ('#' :: lt) = true) :
    countOcc ('#' :: pr) ('#' :: (lt ++ rest)) =
      (if ('#' :: pr).isPrefixOf ('#' :: lt) then 1 else 0) + countOcc ('#' :: pr) rest := by
  have h := countOcc_hash_lit ('#' :: pr) pr lt rest rfl hlt hd
  simpa [List.cons_append] using h

theorem countOcc_full_prompt (pr : Str)
    (hnl : ('#' :: pr).all (fun c => !(c == '\n')) = true)
    (role raw numbered bcons fmtT bqual audT toneT : Str)
    (hrole : noHashB role = true) (hnum : noHashB numbered = true)
    (hbcons : noHashB bcons = true) (hfmt : noHashB fmtT = true)
    (hbqual : noHashB bqual = true) (haud : noHashB audT = true)
    (htone : noHashB toneT = true)
    (hraw : countOcc ('#' :: pr) raw = 0)
    (hd1 : divergesEarly ('#' :: pr) "# Role Definition".data = true ∨
      ('#' :: pr).isPrefixOf "# Role Definition".data = true)
    (hd2 : divergesEarly ('#' :: pr) "# Context".data = true ∨
      ('#' :: pr).isPrefixOf "# Context".data = true)
    (hd3 : divergesEarly ('#' :: pr) "# Instructions".data = true ∨
      ('#' :: pr).isPrefixOf "# Instructions".data = true)
    (hd4 : divergesEarly ('#' :: pr) "# Constraints".data = true ∨
      ('#' :: pr).isPrefixOf "# Constraints".data = true)
    (hd5 : divergesEarly ('#' :: pr) "# Output Format".data = true ∨
      ('#' :: pr).isPrefixOf "# Output Format".data = true)
    (hd6 : divergesEarly ('#' :: pr) "# Quality Criteria".data = true ∨
      ('#' :: pr).isPrefixOf "# Quality Criteria".data = true)
    (hd7 : divergesEarly ('#' :: pr) "# Target Audience".data = true ∨
      ('#' :: pr).isPrefixOf "# Target Audience".data = true)
    (hd8 : divergesEarly ('#' :: pr) "# Tone".data = true ∨
      ('#' :: pr).isPrefixOf "# Tone".data = true) :
    countOcc ('#' :: pr)
      ("# Role Definition\n".data ++ (role ++ ("\n\n# Context\n".data ++ (raw ++
        ("\n\n# Instructions\n".data ++ (numbered ++ ("\n# Constraints\n".data ++ (bcons ++
        ("\n# Output Format\n".data ++ (fmtT ++ ("\n".data ++ ("\n# Quality Criteria\n".data ++
        (bqual ++ ("\n# Target Audience\n".data ++ (audT ++ ("\n".data ++ ("\n# Tone\n".data ++
        (toneT ++ "\n".data))))))))))))))))))
    = (if ('#' :: pr).isPrefixOf "# Role Definition".data then 1 else 0)
      + ((if ('#' :: pr).isPrefixOf "# Context".data then 1 else 0)
      + ((if ('#' :: pr).isPrefixOf "# Instructions".data then 1 else 0)
      + ((if ('#' :: pr).isPrefixOf "# Constraints".data then 1 else 0)
      + ((if ('#' :: pr).isPrefixOf "# Output Format".data then 1 else 0)
      + ((if ('#' :: pr).isPrefixOf "# Quality Criteria".data then 1 else 0)
      + ((if ('#' :: pr).isPrefixOf "# Target Audience".data then 1 else 0)
      + (if ('#' :: pr).isPrefixOf "# Tone".data then 1 else 0))))))) := by
  show countOcc ('#' :: pr)
      ('#' :: (" Role Definition".data ++ ('\n' :: (role ++ ('\n' :: ('\n' :: ('#' ::
      (" Context".data ++ ('\n' :: (raw ++ ('\n' :: ('\n' :: ('#' ::
      (" Instructions".data ++ ('\n' :: (numbered ++ ('\n' :: ('#' ::
      (" Constraints".data ++ ('\n' :: (bcons ++ ('\n' :: ('#' ::
      (" Output Format".data ++ ('\n' :: (fmtT ++ ('\n' :: ('\n' :: ('#' ::
      (" Quality Criteria".data ++ ('\n' :: (bqual ++ ('\n' :: ('#' ::
      (" Target Audience".data ++ ('\n' :: (audT ++ ('\n' :: ('\n' :: ('#' ::
      (" Tone".data ++ ('\n' :: (toneT ++ ('\n' :: ([] : Str)))))))))))))))))))))))))))))))))))))))))))))
    = _
  rw [countOcc_hash_lit2 pr (" Role Definition".data) _ (by decide) hd1]
  rw [countOcc_cons_ne ('#' :: pr) '#' '\n' pr _ rfl (by decide)]
  rw [countOcc_append_noHashB pr role _ hrole]
  rw [countOcc_cons_ne ('#' :: pr) '#' '\n' pr _ rfl (by decide)]
  rw [countOcc_cons_ne ('#' :: pr) '#' '\n' pr _ rfl (by decide)]
  rw [countOcc_hash_lit2 pr (" Context".data) _ (by decide) hd2]
  rw [countOcc_cons_ne ('#' :: pr) '#' '\n' pr _ rfl (by decide)]
  rw [countOcc_split_at_nl ('#' :: pr) (by simp) hnl raw _]
  rw [hraw]
  rw [countOcc_cons_ne ('#' :: pr) '#' '\n' pr _ rfl (by decide)]
  rw [countOcc_hash_lit2 pr (" Instructions".data) _ (by decide) hd3]
  rw [countOcc_cons_ne ('#' :: pr) '#' '\n' pr _ rfl (by decide)]
  rw [countOcc_append_noHashB pr numbered _ hnum]
  rw [countOcc_cons_ne ('#' :: pr) '#' '\n' pr _ rfl (by decide)]
  rw [countOcc_hash_lit2 pr (" Constraints".data) _ (by decide) hd4]
  rw [countOcc_cons_ne ('#' :: pr) '#' '\n' pr _ rfl (by decide)]
  rw [countOcc_append_noHashB pr bcons _ hbcons]
  rw [countOcc_cons_ne ('#' :: pr) '#' '\n' pr _ rfl (by decide)]
  rw [countOcc_hash_lit2 pr (" Output Format".data) _ (by decide) hd5]
  rw [countOcc_cons_ne ('#' :: pr) '#' '\n' pr _ rfl (by decide)]
  rw [countOcc_append_noHashB pr fmtT _ hfmt]
  rw [countOcc_cons_ne ('#' :: pr) '#' '\n' pr _ rfl (by decide)]
  rw [countOcc_cons_ne ('#' :: pr) '#' '\n' pr _ rfl (by decide)]
  rw [countOcc_hash_lit2 pr (" Quality Criteria".data) _ (by decide) hd6]
  rw [countOcc_cons_ne ('#' :: pr) '#' '\n' pr _ rfl (by decide)]
  rw [countOcc_append_noHashB pr bqual _ hbqual]
  rw [countOcc_cons_ne ('#' :: pr) '#' '\n' pr _ rfl (by decide)]
  rw [countOcc_hash_lit2 pr (" Target Audience".data) _ (by decide) hd7]
  rw [countOcc_cons_ne ('#' :: pr) '#' '\n' pr _ rfl (by decide)]
  rw [countOcc_append_noHashB pr audT _ haud]
  rw [countOcc_cons_ne ('#' :: pr) '#' '\n' pr _ rfl (by decide)]
  rw [countOcc_cons_ne ('#' :: pr) '#' '\n' pr _ rfl (by decide)]
  rw [countOcc_hash_lit2 pr (" Tone".data) _ (by decide) hd8]
  rw [countOcc_cons_ne ('#' :: pr) '#' '\n' pr _ rfl (by decide)]
  rw [countOcc_append_noHashB pr toneT _ htone]
  rw [countOcc_cons_ne ('#' :: pr) '#' '\n' pr _ rfl (by decide)]
  simp only [countOcc, Nat.zero_add, Nat.add_zero]

theorem full_prompt_as_chunks (target : TargetLLM) (s : Str) :
    (transform target s).full_prompt =
      "# Role Definition\n".data ++ (generate_role_definition (extract_context s) ++
      ("\n\n# Context\n".data ++ (s ++
      ("\n\n# Instructions\n".data ++ (numberedFrom 1 (generate_instructions (extract_context s)) ++
      ("\n# Constraints\n".data ++ (bulleted (generate_constraints target (extract_context s)) ++
      ("\n# Output Format\n".data ++ (pyTitle (replUnderscore (extract_context s).output_format) ++
      ("\n".data ++ ("\n# Quality Criteria\n".data ++
      (bulleted (generate_quality_criteria (extract_context s)) ++
      ("\n# Target Audience\n".data ++ (pyTitle (replUnderscore (extract_context s).target_audience) ++
      ("\n".data ++ ("\n# Tone\n".data ++ (pyTitle ((extract_context s).tone) ++
      "\n".data))))))))))))))))) := by
  show (assemble_prompt target (extract_context s)).full_prompt = _
  simp only [assemble_prompt, generate_examples, List.append_assoc]
  rfl

/-- C7 counterexample: the claim quantifies over every input string, but
`raw_input` is embedded verbatim in the Context section; on the input
"# Instructions" the header "# Instructions" occurs twice in the full
prompt, not exactly once. -/
theorem C7_counterexample :
    countOcc "# Instructions".data
        ((transform TargetLLM.CLAUDE_35_SONNET "# Instructions".data).full_prompt) = 2 ∧
    ¬ countOcc "# Instructions".data
        ((transform TargetLLM.CLAUDE_35_SONNET "# Instructions".data).full_prompt) = 1 := by
  refine ⟨by decide, by decide⟩

/-- C7 (amended): for every target and every input string that does not
itself contain any of the four section headers as a substring, the
`full_prompt` produced by `transform` contains each of the literal
headers "# Role Definition", "# Instructions", "# Constraints",
"# Quality Criteria" exactly once, in that relative order. -/
theorem C7_header_sections :
    ∀ (target : TargetLLM) (s : Str),
      occursIn "# Role Definition".data s = false →
      occursIn "# Instructions".data s = false →
      occursIn "# Constraints".data s = false →
      occursIn "# Quality Criteria".data s = false →
      (countOcc "# Role Definition".data (transform target s).full_prompt = 1 ∧
       countOcc "# Instructions".data (transform target s).full_prompt = 1 ∧
       countOcc "# Constraints".data (transform target s).full_prompt = 1 ∧
       countOcc "# Quality Criteria".data (transform target s).full_prompt = 1) ∧
      ∃ u1 u2 u3 u4 u5 : Str,
        (transform target s).full_prompt =
          u1 ++ "# Role Definition".data ++ u2 ++ "# Instructions".data ++ u3 ++
          "# Constraints".data ++ u4 ++ "# Quality Criteria".data ++ u5 := by
  intro target s h1 h2 h3 h4
  have hrole : noHashB (generate_role_definition (extract_context s)) = true :=
    generate_role_definition_noHash (extract_context s)
      (fun w hw => extract_keywords_noHash s w hw)
  have hnum : noHashB (numberedFrom 1 (generate_instructions (extract_context s))) = true :=
    numbered_instructions_noHash (extract_context s)
      (generate_instructions_noHash (extract_context s)
        (fun w hw => extract_keywords_noHash s w hw)
        (detect_output_format_noHash s))
  have hbcons : noHashB (bulleted (generate_constraints target (extract_context s))) = true :=
    noHashB_bulleted _
      (generate_constraints_noHash target (extract_context s)
        (fun x hx => extract_constraints_noHash s x hx))
  have hfmtT : noHashB (pyTitle (replUnderscore (extract_context s).output_format)) = true :=
    noHashB_pyTitle _ (noHashB_replUnderscore _ (detect_output_format_noHash s))
  have hbqual : noHashB (bulleted (generate_quality_criteria (extract_context s))) = true :=
    noHashB_bulleted _ (generate_quality_criteria_noHash (extract_context s))
  have haudT : noHashB (pyTitle (replUnderscore (extract_context s).target_audience)) = true :=
    noHashB_pyTitle _ (noHashB_replUnderscore _ (detect_audience_noHash s))
  have htoneT : noHashB (pyTitle ((extract_context s).tone)) = true :=
    noHashB_pyTitle _ (detect_tone_noHash s)
  have key1 : countOcc ('#' :: " Role Definition".data) ((transform target s).full_prompt) = 1 := by
    rw [full_prompt_as_chunks target s]
    rw [countOcc_full_prompt (" Role Definition".data) (by decide) _ _ _ _ _ _ _ _
      hrole hnum hbcons hfmtT hbqual haudT htoneT
      (countOcc_eq_zero_of_not_occursIn _ _ h1)
      (by decide) (by decide) (by decide) (by decide)
      (by decide) (by decide) (by decide) (by decide)]
    decide
  have key2 : countOcc ('#' :: " Instructions".data) ((transform target s).full_prompt) = 1 := by
    rw [full_prompt_as_chunks target s]
    rw [countOcc_full_prompt (" Instructions".data) (by decide) _ _ _ _ _ _ _ _
      hrole hnum hbcons hfmtT hbqual haudT htoneT
      (countOcc_eq_zero_of_not_occursIn _ _ h2)
      (by decide) (by decide) (by decide) (by decide)
      (by decide) (by decide) (by decide) (by decide)]
    decide
  have key3 : countOcc ('#' :: " Constraints".data) ((transform target s).full_prompt) = 1 := by
    rw [full_prompt_as_chunks target s]
    rw [countOcc_full_prompt (" Constraints".data) (by decide) _ _ _ _ _ _ _ _
      hrole hnum hbcons hfmtT hbqual haudT htoneT
      (countOcc_eq_zero_of_not_occursIn _ _ h3)
      (by decide) (by decide) (by decide) (by decide)
      (by decide) (by decide) (by decide) (by decide)]
    decide
  have key4 : countOcc ('#' :: " Quality Criteria".data) ((transform target s).full_prompt) = 1 := by
    rw [full_prompt_as_chunks target s]
    rw [countOcc_full_prompt (" Quality Criteria".data) (by decide) _ _ _ _ _ _ _ _
      hrole hnum hbcons hfmtT hbqual haudT htoneT
      (countOcc_eq_zero_of_not_occursIn _ _ h4)
      (by decide) (by decide) (by decide) (by decide)
      (by decide) (by decide) (by decide) (by decide)]
    decide
  refine ⟨⟨key1, key2, key3, key4⟩, ?_⟩
  refine ⟨[],
    "\n".data ++ generate_role_definition (extract_context s) ++ "\n\n# Context\n".data
      ++ s ++ "\n\n".data,
    "\n".data ++ numberedFrom 1 (generate_instructions (extract_context s)) ++ "\n".data,
    "\n".data ++ bulleted (generate_constraints target (extract_context s))
      ++ "\n# Output Format\n".data ++ pyTitle (replUnderscore (extract_context s).output_format)
      ++ "\n\n".data,
    "\n".data ++ bulleted (generate_quality_criteria (extract_context s))
      ++ "\n# Target Audience\n".data
      ++ pyTitle (replUnderscore (extract_context s).target_audience)
      ++ "\n\n# Tone\n".data ++ pyTitle ((extract_context s).tone) ++ "\n".data, ?_⟩
  rw [full_prompt_as_chunks target s]
  simp only [List.append_assoc, List.nil_append]
  rfl

/-- C7 witness: the amended claim at a concrete benign input. -/
theorem C7_header_sections_witness :
    (countOcc "# Role Definition".data
        (transform TargetLLM.GPT_4O "write a poem".data).full_prompt = 1 ∧
     countOcc "# Instructions".data
        (transform TargetLLM.GPT_4O "write a poem".data).full_prompt = 1 ∧
     countOcc "# Constraints".data
        (transform TargetLLM.GPT_4O "write a poem".data).full_prompt = 1 ∧
     countOcc "# Quality Criteria".data
        (transform TargetLLM.GPT_4O "write a poem".data).full_prompt = 1) ∧
    ∃ u1 u2 u3 u4 u5 : Str,
      (transform TargetLLM.GPT_4O "write a poem".data).full_prompt =
        u1 ++ "# Role Definition".data ++ u2 ++ "# Instructions".data ++ u3 ++
        "# Constraints".data ++ u4 ++ "# Quality Criteria".data ++ u5 :=
  C7_header_sections TargetLLM.GPT_4O "write a poem".data
    (by decide) (by decide) (by decide) (by decide)
